import Mathlib

/-! Melkior engine: memory-type resolution, buffer management, device selection.

A shallow embedding of `src/engine/include/engine.hpp`, `src/engine/src/engine.cpp`
and of the helper functions of `src/tensor_ops/elementwise/clear/main.cpp`.

Conventions of the embedding.

* Vulkan handles are natural numbers, `VK_NULL_HANDLE` is `0`.
* `VkResult` is an integer; the enumerators used by the sources carry the values of
  `vulkan_core.h`.
* Unsigned 32-bit quantities are natural numbers; the only operation of the sources
  that can leave the 32-bit range, the shift `1u << i`, is reduced modulo `2 ^ 32`.
* A `VkPhysicalDevice` value stands for the handle together with what the driver
  reports for that handle (vendor, queue families, memory types).
* Calls into the driver are recorded, with their arguments and their outcome, in a
  chronological list of `NativeCall`; the outcomes are inputs of the embedded functions.
-/

namespace melkior.engine

/-! ## Constants taken from the Vulkan headers -/

abbrev Handle := Nat

abbrev VkResult := Int

def VK_NULL_HANDLE : Handle := 0

def VK_SUCCESS : VkResult := 0

def VK_ERROR_OUT_OF_HOST_MEMORY : VkResult := -1

def VK_ERROR_OUT_OF_DEVICE_MEMORY : VkResult := -2

def VK_ERROR_MEMORY_MAP_FAILED : VkResult := -5

def VK_ERROR_UNKNOWN : VkResult := -13

def VK_MEMORY_PROPERTY_DEVICE_LOCAL_BIT : Nat := 0x1

def VK_MEMORY_PROPERTY_HOST_VISIBLE_BIT : Nat := 0x2

def VK_MEMORY_PROPERTY_HOST_COHERENT_BIT : Nat := 0x4

def VK_QUEUE_GRAPHICS_BIT : Nat := 0x1

def VK_QUEUE_COMPUTE_BIT : Nat := 0x2

def VK_SHARING_MODE_EXCLUSIVE : Nat := 0

def VK_MAX_MEMORY_TYPES : Nat := 32

/-- Value of the C expression `1u << i` on 32-bit unsigned operands. -/
def shl32 (a i : Nat) : Nat := (a <<< i) % 2 ^ 32

/-- Value of the C cast `(int)i` of a 32-bit unsigned `i` (two-complement wrap). -/
def toInt32 (i : Nat) : Int :=
  if i % 2 ^ 32 < 2 ^ 31 then ((i % 2 ^ 32 : Nat) : Int) else ((i % 2 ^ 32 : Nat) : Int) - 2 ^ 32

/-! ## Data model (`engine.hpp` and the Vulkan structures the sources read) -/

structure VkMemoryType where
  propertyFlags : Nat := 0
  heapIndex : Nat := 0
  deriving DecidableEq, Repr, Inhabited

/-- The structure filled by `vkGetPhysicalDeviceMemoryProperties`. The sources
zero-initialise it (`mp{}`), so an entry the driver did not write reads as zero:
`memoryTypes` lists the entries written and `memoryTypeAt` reads the array. -/
structure VkPhysicalDeviceMemoryProperties where
  memoryTypeCount : Nat := 0
  memoryTypes : List VkMemoryType := []
  deriving DecidableEq, Repr, Inhabited

def VkPhysicalDeviceMemoryProperties.memoryTypeAt (mp : VkPhysicalDeviceMemoryProperties)
    (i : Nat) : VkMemoryType :=
  mp.memoryTypes.getD i {}

structure VkQueueFamilyProperties where
  queueFlags : Nat := 0
  queueCount : Nat := 0
  deriving DecidableEq, Repr, Inhabited

/-- A physical device: its handle and what the driver reports for it. -/
structure VkPhysicalDevice where
  handle : Handle := VK_NULL_HANDLE
  vendorID : Nat := 0
  queueFamilies : List VkQueueFamilyProperties := []
  memoryProperties : VkPhysicalDeviceMemoryProperties := {}
  deriving DecidableEq, Repr, Inhabited

structure VkMemoryRequirements where
  size : Nat := 0
  alignment : Nat := 0
  memoryTypeBits : Nat := 0
  deriving DecidableEq, Repr, Inhabited

/-- The template `Result<T>`: a `std::variant<T, VkResult>`. -/
inductive Result (T : Type) where
  | value : T → Result T
  | error : VkResult → Result T
  deriving DecidableEq, Repr

/-- Member `isValid`: the variant does not hold a `VkResult`. -/
def Result.isValid {T : Type} : Result T → Bool
  | .value _ => true
  | .error _ => false

/-- Member `getError`: `std::get<VkResult>`, which throws (here `none`) on a value. -/
def Result.getError {T : Type} : Result T → Option VkResult
  | .value _ => none
  | .error e => some e

/-- Member `getValue`: `std::get<T>`, which throws (here `none`) on an error. -/
def Result.getValue {T : Type} : Result T → Option T
  | .value v => some v
  | .error _ => none

structure Buffer where
  _buffer : Handle := VK_NULL_HANDLE
  _memory : Handle := VK_NULL_HANDLE
  _size : Nat := 0
  deriving DecidableEq, Repr, Inhabited

/-! ## `findMemoryTypeIndex` (engine.cpp lines 36-48) -/

/-- The test of the loop body: `(typeBits & (1u << i)) &&
(mp.memoryTypes[i].propertyFlags & props) == props`. -/
def memoryTypeMatches (mp : VkPhysicalDeviceMemoryProperties) (typeBits props i : Nat) : Bool :=
  (typeBits &&& shl32 1 i != 0) && ((mp.memoryTypeAt i).propertyFlags &&& props == props)

/-- The loop `for (uint32_t i = 0; i < mp.memoryTypeCount; i++)`: the first argument is
the number of iterations left, `memoryTypeCount - i`. -/
def findMemoryTypeIndexLoop (mp : VkPhysicalDeviceMemoryProperties) (typeBits props : Nat) :
    Nat → Nat → Result Nat
  | 0, _ => Result.error VK_ERROR_MEMORY_MAP_FAILED
  | n + 1, i =>
    if memoryTypeMatches mp typeBits props i then Result.value i
    else findMemoryTypeIndexLoop mp typeBits props n (i + 1)

def findMemoryTypeIndex (phys : VkPhysicalDevice) (typeBits props : Nat) : Result Nat :=
  findMemoryTypeIndexLoop phys.memoryProperties typeBits props
    phys.memoryProperties.memoryTypeCount 0

end melkior.engine

/-! ## `findMemoryTypeIndex` of the clear example (main.cpp lines 31-40) -/

namespace clear

open melkior.engine

/-- The loop of the clear example; running off the table throws `std::runtime_error`. -/
def findMemoryTypeIndexLoop (mp : VkPhysicalDeviceMemoryProperties) (typeBits props : Nat) :
    Nat → Nat → Except String Nat
  | 0, _ => Except.error "No suitable memory type found"
  | n + 1, i =>
    if (typeBits &&& shl32 1 i != 0) && ((mp.memoryTypeAt i).propertyFlags &&& props == props)
    then Except.ok i
    else findMemoryTypeIndexLoop mp typeBits props n (i + 1)

def findMemoryTypeIndex (phys : VkPhysicalDevice) (typeBits props : Nat) : Except String Nat :=
  findMemoryTypeIndexLoop phys.memoryProperties typeBits props
    phys.memoryProperties.memoryTypeCount 0

end clear

namespace melkior.engine

/-- The memory types of the example of the specification: host visible; host visible
and coherent; device local. -/
def exampleDevice : VkPhysicalDevice :=
  { handle := 7
    vendorID := 0x10DE
    queueFamilies := [{ queueFlags := VK_QUEUE_COMPUTE_BIT, queueCount := 1 }]
    memoryProperties :=
      { memoryTypeCount := 3
        memoryTypes :=
          [{ propertyFlags := VK_MEMORY_PROPERTY_HOST_VISIBLE_BIT },
            { propertyFlags :=
                VK_MEMORY_PROPERTY_HOST_VISIBLE_BIT ||| VK_MEMORY_PROPERTY_HOST_COHERENT_BIT },
            { propertyFlags := VK_MEMORY_PROPERTY_DEVICE_LOCAL_BIT }] } }

/-! ## Calls into the driver -/

/-- One call into the Vulkan driver, with the arguments the sources pass and, for the
calls whose outcome the sources read, the outcome. -/
inductive NativeCall where
  | vkCreateInstance (result : VkResult) (created : Handle)
  | vkEnumeratePhysicalDevices (inst : Handle) (withArray : Bool) (result : VkResult)
      (gpuCount : Nat)
  | vkGetPhysicalDeviceProperties (physicalDevice : Handle)
  | vkGetPhysicalDeviceQueueFamilyProperties (physicalDevice : Handle) (withArray : Bool)
  | vkCreateDevice (physicalDevice : Handle) (queueFamilyIndex queueCount : Nat)
      (result : VkResult) (created : Handle)
  | vkGetDeviceQueue (device : Handle) (queueFamilyIndex queueIndex : Nat)
  | vkDestroyDevice (device : Handle)
  | vkDestroyInstance (inst : Handle)
  | vkCreateBuffer (device : Handle) (size usage sharingMode : Nat) (result : VkResult)
      (created : Handle)
  | vkGetBufferMemoryRequirements (device buffer : Handle)
  | vkGetPhysicalDeviceMemoryProperties (physicalDevice : Handle)
  | vkAllocateMemory (device : Handle) (allocationSize memoryTypeIndex : Nat)
      (result : VkResult) (created : Handle)
  | vkBindBufferMemory (device buffer memory : Handle) (memoryOffset : Nat)
      (result : VkResult)
  | vkDestroyBuffer (device buffer : Handle)
  | vkFreeMemory (device memory : Handle)
  deriving DecidableEq, Repr

/-- Whether the call releases a native object. -/
def NativeCall.isRelease : NativeCall → Bool
  | .vkDestroyDevice _ => true
  | .vkDestroyInstance _ => true
  | .vkDestroyBuffer _ _ => true
  | .vkFreeMemory _ _ => true
  | _ => false

/-- Effect of one call on the set of live buffer objects: a successful
`vkCreateBuffer` adds the created handle, `vkDestroyBuffer` removes its argument. -/
def liveBuffersStep (live : List Handle) : NativeCall → List Handle
  | .vkCreateBuffer _ _ _ _ result created =>
    if result = VK_SUCCESS then created :: live else live
  | .vkDestroyBuffer _ buffer => live.filter (fun h => h != buffer)
  | _ => live

/-- The buffer objects that are live after a history of calls. -/
def liveBuffers (s : List NativeCall) : List Handle := s.foldl liveBuffersStep []

/-- Effect of one call on the set of live device-memory allocations. -/
def liveMemoryStep (live : List Handle) : NativeCall → List Handle
  | .vkAllocateMemory _ _ _ result created =>
    if result = VK_SUCCESS then created :: live else live
  | .vkFreeMemory _ memory => live.filter (fun h => h != memory)
  | _ => live

/-- The device-memory allocations that are live after a history of calls. -/
def liveMemory (s : List NativeCall) : List Handle := s.foldl liveMemoryStep []

/-! ## `findGraphicsQueueFamily` (engine.cpp lines 24-34) -/

/-- The loop over the queue families; the second argument is the index `i`. -/
def findGraphicsQueueFamilyLoop : List VkQueueFamilyProperties → Nat → Int
  | [], _ => -1
  | q :: rest, i =>
    if decide (0 < q.queueCount) && (q.queueFlags &&& VK_QUEUE_COMPUTE_BIT != 0) then toInt32 i
    else findGraphicsQueueFamilyLoop rest (i + 1)

def findGraphicsQueueFamily (phys : VkPhysicalDevice) : Int :=
  findGraphicsQueueFamilyLoop phys.queueFamilies 0

/-! ## The class `Engine` -/

structure EngineState where
  _ready : Bool
  _result : VkResult
  deriving DecidableEq, Repr

structure Engine where
  m_instance : Handle
  m_physicalDevice : VkPhysicalDevice
  m_device : Handle
  m_queue : Handle
  m_computeFamilyIndex : Nat
  m_result : VkResult
  m_success : Bool
  deriving DecidableEq, Repr

/-- What the driver answers to the calls of the constructor. Both calls of
`vkEnumeratePhysicalDevices` see the device list `gpus` and report `enumerateResult`
(the constructor ignores the result of the second call). -/
structure ConstructorOutcomes where
  createInstanceResult : VkResult
  instanceHandle : Handle
  enumerateResult : VkResult
  gpus : List VkPhysicalDevice
  createDeviceResult : VkResult
  deviceHandle : Handle
  queueHandle : Handle
  deriving DecidableEq, Repr

/-- The device-selection loop of the constructor (engine.cpp lines 115-124): the
arguments are the devices not yet visited, `currentPhysDeviceIndex` and
`physicalDeviceIndex`; the value is the final `physicalDeviceIndex`. -/
def selectPhysicalDeviceLoop : List VkPhysicalDevice → Nat → Nat → Nat
  | [], _, physicalDeviceIndex => physicalDeviceIndex
  | gpu :: rest, currentPhysDeviceIndex, physicalDeviceIndex =>
    selectPhysicalDeviceLoop rest (currentPhysDeviceIndex + 1)
      (if 0x10DE = gpu.vendorID then currentPhysDeviceIndex else physicalDeviceIndex)

def selectPhysicalDeviceIndex (gpus : List VkPhysicalDevice) : Nat :=
  selectPhysicalDeviceLoop gpus 0 0

/-- The constructor `Engine::Engine` (engine.cpp lines 77-162). `uninit` holds the
indeterminate contents of the object before the constructor runs: a member the
constructor does not assign keeps that content. A native create call stores the
created handle on success only. -/
def Engine.construct (uninit : Engine) (o : ConstructorOutcomes) (s : List NativeCall) :
    Engine × List NativeCall :=
  let e := { uninit with m_success := true, m_result := VK_SUCCESS }
  let e := { e with m_instance := VK_NULL_HANDLE }
  let s := s ++ [NativeCall.vkCreateInstance o.createInstanceResult o.instanceHandle]
  let e := { e with
    m_result := o.createInstanceResult
    m_instance := if o.createInstanceResult = VK_SUCCESS then o.instanceHandle else e.m_instance }
  if e.m_result != VK_SUCCESS then ({ e with m_success := false }, s) else
  let gpuCount := o.gpus.length
  let s := s ++ [NativeCall.vkEnumeratePhysicalDevices e.m_instance false o.enumerateResult gpuCount]
  let e := { e with m_result := o.enumerateResult }
  if e.m_result != VK_SUCCESS || gpuCount == 0 then ({ e with m_success := false }, s) else
  let gpus := o.gpus
  let s := s ++ [NativeCall.vkEnumeratePhysicalDevices e.m_instance true o.enumerateResult gpuCount]
  let s := s ++ gpus.map (fun gpu => NativeCall.vkGetPhysicalDeviceProperties gpu.handle)
  let physicalDeviceIndex := selectPhysicalDeviceIndex gpus
  let e := { e with m_physicalDevice := gpus.getD physicalDeviceIndex {} }
  let s := s ++ [NativeCall.vkGetPhysicalDeviceQueueFamilyProperties e.m_physicalDevice.handle false,
    NativeCall.vkGetPhysicalDeviceQueueFamilyProperties e.m_physicalDevice.handle true]
  let computeFamilyIndex := findGraphicsQueueFamily e.m_physicalDevice
  if computeFamilyIndex < 0 then
    ({ e with m_result := VK_ERROR_UNKNOWN, m_success := false }, s) else
  let e := { e with m_device := VK_NULL_HANDLE }
  let s := s ++ [NativeCall.vkCreateDevice e.m_physicalDevice.handle computeFamilyIndex.toNat 1
    o.createDeviceResult o.deviceHandle]
  let e := { e with
    m_result := o.createDeviceResult
    m_device := if o.createDeviceResult = VK_SUCCESS then o.deviceHandle else e.m_device }
  if e.m_result != VK_SUCCESS then ({ e with m_success := false }, s) else
  let e := { e with m_queue := VK_NULL_HANDLE }
  let s := s ++ [NativeCall.vkGetDeviceQueue e.m_device computeFamilyIndex.toNat 0]
  ({ e with m_queue := o.queueHandle }, s)

/-- The destructor `Engine::~Engine`. -/
def Engine.destruct (e : Engine) (s : List NativeCall) : List NativeCall :=
  s ++ [NativeCall.vkDestroyDevice e.m_device, NativeCall.vkDestroyInstance e.m_instance]

def Engine.getEngineState (e : Engine) : EngineState := ⟨e.m_success, e.m_result⟩

/-- What the driver answers to the calls of `createBuffer`. -/
structure CreateBufferOutcomes where
  createBufferResult : VkResult
  bufferHandle : Handle
  requirements : VkMemoryRequirements
  allocateResult : VkResult
  memoryHandle : Handle
  bindResult : VkResult
  deriving DecidableEq, Repr

/-- The member `Engine::createBuffer` (engine.cpp lines 273-313). The test
`!memoryTypeIndex.isValid()` followed by `getError()` or `getValue()` is the case
distinction on the variant. -/
def Engine.createBuffer (e : Engine) (o : CreateBufferOutcomes) (size usage memProps : Nat)
    (s : List NativeCall) : Result Buffer × List NativeCall :=
  let out : Buffer := {}
  let out := { out with _size := size }
  let s := s ++ [NativeCall.vkCreateBuffer e.m_device size usage VK_SHARING_MODE_EXCLUSIVE
    o.createBufferResult o.bufferHandle]
  let result := o.createBufferResult
  if result != VK_SUCCESS then (Result.error result, s) else
  let out := { out with _buffer := o.bufferHandle }
  let s := s ++ [NativeCall.vkGetBufferMemoryRequirements e.m_device out._buffer]
  let req := o.requirements
  let s := s ++ [NativeCall.vkGetPhysicalDeviceMemoryProperties e.m_physicalDevice.handle]
  match findMemoryTypeIndex e.m_physicalDevice req.memoryTypeBits memProps with
  | Result.error err => (Result.error err, s)
  | Result.value memoryTypeIndex =>
    let s := s ++ [NativeCall.vkAllocateMemory e.m_device req.size memoryTypeIndex
      o.allocateResult o.memoryHandle]
    let result := o.allocateResult
    if result != VK_SUCCESS then (Result.error result, s) else
    let out := { out with _memory := o.memoryHandle }
    let s := s ++ [NativeCall.vkBindBufferMemory e.m_device out._buffer out._memory 0
      o.bindResult]
    let result := o.bindResult
    if result != VK_SUCCESS then (Result.error result, s) else
    (Result.value out, s)

/-- The member `Engine::destroyBuffer` (engine.cpp lines 315-318). -/
def Engine.destroyBuffer (e : Engine) (buffer : Buffer) (s : List NativeCall) :
    List NativeCall :=
  s ++ [NativeCall.vkDestroyBuffer e.m_device buffer._buffer,
    NativeCall.vkFreeMemory e.m_device buffer._memory]

/-! ## Concrete inputs used by the examples below -/

/-- An engine on the example device. -/
def exampleEngine : Engine :=
  { m_instance := 1, m_physicalDevice := exampleDevice, m_device := 2, m_queue := 3,
    m_computeFamilyIndex := 0, m_result := VK_SUCCESS, m_success := true }

end melkior.engine

namespace clear

open melkior.engine

/-! ## The clear example: constants, helpers and `readFileU32` -/

def UINT32_MAX : Nat := 2 ^ 32 - 1

def UINT64_MAX : Nat := 2 ^ 64 - 1

def VK_WHOLE_SIZE : Nat := 2 ^ 64 - 1

def VK_BUFFER_USAGE_STORAGE_BUFFER_BIT : Nat := 0x20

def VK_COMMAND_POOL_CREATE_RESET_COMMAND_BUFFER_BIT : Nat := 0x2

def VK_COMMAND_BUFFER_USAGE_ONE_TIME_SUBMIT_BIT : Nat := 0x1

def VK_ACCESS_SHADER_WRITE_BIT : Nat := 0x40

def VK_ACCESS_HOST_READ_BIT : Nat := 0x2000

def VK_PIPELINE_STAGE_COMPUTE_SHADER_BIT : Nat := 0x800

def VK_PIPELINE_STAGE_HOST_BIT : Nat := 0x4000

/-- Sum of two 32-bit unsigned operands. -/
def add32 (a b : Nat) : Nat := (a + b) % 2 ^ 32

/-- Difference of two 32-bit unsigned operands. -/
def sub32 (a b : Nat) : Nat := (a % 2 ^ 32 + 2 ^ 32 - b % 2 ^ 32) % 2 ^ 32

/-- The constant `N` of `main`: the number of 32-bit words to clear. -/
def N : Nat := 1024

/-- The constant `value` of `main`. -/
def value : Nat := 0xDEADBEEF

/-- The size `sizeof(PushConstants)` of the structure of two `uint32_t`. -/
def sizeofPushConstants : Nat := 8

/-- The expression of line 251, `(N + 256u - 1u) / 256u`, on 32-bit unsigned operands. -/
def groupCountX (n : Nat) : Nat := sub32 (add32 n 256) 1 / 256

/-- The storage of one `uint32_t`: its four bytes in memory order. -/
structure Word32 where
  b0 : Nat
  b1 : Nat
  b2 : Nat
  b3 : Nat
  deriving DecidableEq, Repr

def Word32.bytes (w : Word32) : List Nat := [w.b0, w.b1, w.b2, w.b3]

/-- The bytes of the storage of a vector of `uint32_t`, in memory order. -/
def wordBytes : List Word32 → List Nat
  | [] => []
  | w :: ws => w.b0 :: w.b1 :: w.b2 :: w.b3 :: wordBytes ws

/-- The vector `data` of `readFileU32` after `file.read`: the given number of words,
filled with the bytes of the file in order (a byte that is not there reads as the
zero the vector was created with). -/
def fillWords : Nat → List Nat → List Word32
  | 0, _ => []
  | n + 1, bytes =>
    ⟨bytes.getD 0 0, bytes.getD 1 0, bytes.getD 2 0, bytes.getD 3 0⟩ ::
      fillWords n (bytes.drop 4)

/-- The function `readFileU32` (main.cpp lines 20-29). `file` is what the file system
holds at `path`: `none` when the file cannot be opened, else its bytes; `size` is the
position `tellg` reports at the end of the file. -/
def readFileU32 (path : String) (file : Option (List Nat)) : Except String (List Word32) :=
  match file with
  | none => Except.error ("Cannot open file: " ++ path)
  | some bytes =>
    let size : Int := bytes.length
    if size ≤ 0 ∨ size % 4 ≠ 0 then Except.error "SPIR-V file size invalid"
    else Except.ok (fillWords (size.toNat / 4) bytes)

/-! ## The clear example: `main` -/

/-- One step of `main` that is visible from outside: a call into the driver with the
arguments the claims are about, or an access of the host to the mapped memory. -/
inductive Call where
  | vkCreateInstance
  | vkEnumeratePhysicalDevices (withArray : Bool)
  | vkGetPhysicalDeviceQueueFamilyProperties (withArray : Bool)
  | vkCreateDevice (queueFamilyIndex queueCount : Nat)
  | vkGetDeviceQueue (queueFamilyIndex queueIndex : Nat)
  | vkCreateBuffer (size usage : Nat)
  | vkGetBufferMemoryRequirements
  | vkGetPhysicalDeviceMemoryProperties
  | vkAllocateMemory (allocationSize memoryTypeIndex : Nat)
  | vkBindBufferMemory (memoryOffset : Nat)
  | vkMapMemory (offset size : Nat)
  | hostWrite (byte size : Nat)
  | hostRead
  | vkUnmapMemory
  | vkCreateDescriptorSetLayout
  | vkCreatePipelineLayout (pushConstantOffset pushConstantSize : Nat)
  | vkCreateShaderModule (codeSize : Nat)
  | vkCreateComputePipelines
  | vkCreateDescriptorPool
  | vkAllocateDescriptorSets
  | vkUpdateDescriptorSets
  | vkCreateCommandPool (queueFamilyIndex flags : Nat)
  | vkAllocateCommandBuffers
  | vkBeginCommandBuffer (flags : Nat)
  | vkCmdBindPipeline
  | vkCmdBindDescriptorSets
  | vkCmdPushConstants (offset size : Nat) (values : List Nat)
  | vkCmdDispatch (groupCountX groupCountY groupCountZ : Nat)
  | vkCmdPipelineBarrier (srcStageMask dstStageMask srcAccessMask dstAccessMask : Nat)
      (offset size : Nat)
  | vkEndCommandBuffer
  | vkCreateFence
  | vkQueueSubmit
  | vkWaitForFences (timeout : Nat)
  | vkDestroyFence
  | vkDestroyCommandPool
  | vkDestroyDescriptorPool
  | vkDestroyPipeline
  | vkDestroyShaderModule
  | vkDestroyPipelineLayout
  | vkDestroyDescriptorSetLayout
  | vkDestroyBuffer
  | vkFreeMemory
  | vkDestroyDevice
  | vkDestroyInstance
  deriving DecidableEq, Repr

/-- Whether the call releases a native object. -/
def Call.isRelease : Call → Bool
  | .vkDestroyFence => true
  | .vkDestroyCommandPool => true
  | .vkDestroyDescriptorPool => true
  | .vkDestroyPipeline => true
  | .vkDestroyShaderModule => true
  | .vkDestroyPipelineLayout => true
  | .vkDestroyDescriptorSetLayout => true
  | .vkDestroyBuffer => true
  | .vkFreeMemory => true
  | .vkDestroyDevice => true
  | .vkDestroyInstance => true
  | _ => false

/-- How a run of the program ends: it completes, it leaves through an uncaught
`std::runtime_error`, or it calls `std::abort`. -/
inductive Exit (α : Type) where
  | done (a : α)
  | thrown (what : String)
  | aborted
  deriving DecidableEq, Repr

/-- A piece of `main`: from the calls made so far to the way the piece ends and the
calls made up to there. -/
def Run (α : Type) : Type := List Call → Exit α × List Call

def Run.pure {α : Type} (a : α) : Run α := fun s => (Exit.done a, s)

def Run.bind {α β : Type} (m : Run α) (f : α → Run β) : Run β := fun s =>
  match m s with
  | (Exit.done a, s1) => f a s1
  | (Exit.thrown what, s1) => (Exit.thrown what, s1)
  | (Exit.aborted, s1) => (Exit.aborted, s1)

instance : Monad Run where
  pure := Run.pure
  bind := Run.bind

/-- The program makes the call `c`. -/
def call (c : Call) : Run Unit := fun s => (Exit.done (), s ++ [c])

/-- The statement `throw std::runtime_error(what)`. -/
def throwRuntimeError {α : Type} (what : String) : Run α := fun s => (Exit.thrown what, s)

/-- The call `std::abort()`. -/
def abort {α : Type} : Run α := fun s => (Exit.aborted, s)

/-- The function `vkCheck` (main.cpp lines 13-18). -/
def vkCheck (r : VkResult) (what : String) : Run Unit :=
  if r != VK_SUCCESS then throwRuntimeError what else pure ()

/-- A function of the program that throws `std::runtime_error` on failure. -/
def liftExcept {α : Type} : Except String α → Run α
  | Except.ok a => pure a
  | Except.error what => throwRuntimeError what

/-- What the driver, the file system and the mapped memory answer during `main`. -/
structure Outcomes where
  createInstance : VkResult
  enumerateCount : VkResult
  devices : List VkPhysicalDevice
  enumerateList : VkResult
  createDevice : VkResult
  createBuffer : VkResult
  requirements : VkMemoryRequirements
  allocateMemory : VkResult
  bindBufferMemory : VkResult
  mapMemory : VkResult
  createDescriptorSetLayout : VkResult
  createPipelineLayout : VkResult
  shaderFile : Option (List Nat)
  createShaderModule : VkResult
  createComputePipelines : VkResult
  createDescriptorPool : VkResult
  allocateDescriptorSets : VkResult
  createCommandPool : VkResult
  allocateCommandBuffers : VkResult
  beginCommandBuffer : VkResult
  endCommandBuffer : VkResult
  createFence : VkResult
  queueSubmit : VkResult
  waitForFences : VkResult
  mapMemoryReadback : VkResult
  readback : Nat → Nat

/-- The loop of lines 78-83: the first family whose flags include the compute bit,
`UINT32_MAX` when there is none. -/
def computeQueueFamilyLoop : List VkQueueFamilyProperties → Nat → Nat
  | [], _ => UINT32_MAX
  | q :: rest, i =>
    if q.queueFlags &&& VK_QUEUE_COMPUTE_BIT != 0 then i
    else computeQueueFamilyLoop rest (i + 1)

/-- The loop of lines 298-303 run for the given number of rounds from index `i`:
whether some word read differs from `value`. -/
def mismatchLoop (u : Nat → Nat) : Nat → Nat → Bool
  | 0, _ => false
  | n + 1, i => if u i != value then true else mismatchLoop u n (i + 1)

/-- Lines 47-239 of `main`: instance, device, output buffer, layouts, shader module,
pipeline, descriptor set, command pool and command buffer. -/
def setup (o : Outcomes) : Run Unit := do
  call Call.vkCreateInstance
  vkCheck o.createInstance "vkCreateInstance"
  call (Call.vkEnumeratePhysicalDevices false)
  vkCheck o.enumerateCount "vkEnumeratePhysicalDevices(count)"
  let pdCount := o.devices.length
  if pdCount == 0 then throwRuntimeError "No Vulkan physical devices found"
  call (Call.vkEnumeratePhysicalDevices true)
  vkCheck o.enumerateList "vkEnumeratePhysicalDevices(list)"
  let phys := o.devices.getD 0 {}
  call (Call.vkGetPhysicalDeviceQueueFamilyProperties false)
  call (Call.vkGetPhysicalDeviceQueueFamilyProperties true)
  let computeQF := computeQueueFamilyLoop phys.queueFamilies 0
  if computeQF == UINT32_MAX then throwRuntimeError "No compute queue family found"
  call (Call.vkCreateDevice computeQF 1)
  vkCheck o.createDevice "vkCreateDevice"
  call (Call.vkGetDeviceQueue computeQF 0)
  call (Call.vkCreateBuffer (N * 4) VK_BUFFER_USAGE_STORAGE_BUFFER_BIT)
  vkCheck o.createBuffer "vkCreateBuffer"
  call Call.vkGetBufferMemoryRequirements
  let mr := o.requirements
  call Call.vkGetPhysicalDeviceMemoryProperties
  let memType ← liftExcept (findMemoryTypeIndex phys mr.memoryTypeBits
    (VK_MEMORY_PROPERTY_HOST_VISIBLE_BIT ||| VK_MEMORY_PROPERTY_HOST_COHERENT_BIT))
  call (Call.vkAllocateMemory mr.size memType)
  vkCheck o.allocateMemory "vkAllocateMemory"
  call (Call.vkBindBufferMemory 0)
  vkCheck o.bindBufferMemory "vkBindBufferMemory"
  call (Call.vkMapMemory 0 VK_WHOLE_SIZE)
  vkCheck o.mapMemory "vkMapMemory"
  call (Call.hostWrite 0xAB (N * 4))
  call Call.vkUnmapMemory
  call Call.vkCreateDescriptorSetLayout
  vkCheck o.createDescriptorSetLayout "vkCreateDescriptorSetLayout"
  call (Call.vkCreatePipelineLayout 0 sizeofPushConstants)
  vkCheck o.createPipelineLayout "vkCreatePipelineLayout"
  let spirv ← liftExcept (readFileU32 "clear.spv" o.shaderFile)
  call (Call.vkCreateShaderModule (spirv.length * 4))
  vkCheck o.createShaderModule "vkCreateShaderModule"
  call Call.vkCreateComputePipelines
  vkCheck o.createComputePipelines "vkCreateComputePipelines"
  call Call.vkCreateDescriptorPool
  vkCheck o.createDescriptorPool "vkCreateDescriptorPool"
  call Call.vkAllocateDescriptorSets
  vkCheck o.allocateDescriptorSets "vkAllocateDescriptorSets"
  call Call.vkUpdateDescriptorSets
  call (Call.vkCreateCommandPool computeQF VK_COMMAND_POOL_CREATE_RESET_COMMAND_BUFFER_BIT)
  vkCheck o.createCommandPool "vkCreateCommandPool"
  call Call.vkAllocateCommandBuffers
  vkCheck o.allocateCommandBuffers "vkAllocateCommandBuffers"

/-- Lines 241-305 of `main`: record the command buffer, submit it, wait and read the
result back. The begin info `cbbi` is initialised with its structure type alone, so
its `flags` are zero. -/
def recordSubmitReadback (o : Outcomes) : Run Unit := do
  call (Call.vkBeginCommandBuffer 0)
  vkCheck o.beginCommandBuffer "vkBeginCommandBuffer"
  call Call.vkCmdBindPipeline
  call Call.vkCmdBindDescriptorSets
  call (Call.vkCmdPushConstants 0 sizeofPushConstants [N, value])
  call (Call.vkCmdDispatch (groupCountX N) 1 1)
  call (Call.vkCmdPipelineBarrier VK_PIPELINE_STAGE_COMPUTE_SHADER_BIT VK_PIPELINE_STAGE_HOST_BIT
    VK_ACCESS_SHADER_WRITE_BIT VK_ACCESS_HOST_READ_BIT 0 VK_WHOLE_SIZE)
  call Call.vkEndCommandBuffer
  vkCheck o.endCommandBuffer "vkEndCommandBuffer"
  call Call.vkCreateFence
  vkCheck o.createFence "vkCreateFence"
  call Call.vkQueueSubmit
  vkCheck o.queueSubmit "vkQueueSubmit"
  call (Call.vkWaitForFences UINT64_MAX)
  vkCheck o.waitForFences "vkWaitForFences"
  call (Call.vkMapMemory 0 VK_WHOLE_SIZE)
  vkCheck o.mapMemoryReadback "vkMapMemory(readback)"
  call Call.hostRead
  if mismatchLoop o.readback N 0 then abort
  call Call.vkUnmapMemory

/-- Lines 308-319 of `main`: the cleanup. -/
def cleanup : Run Unit := do
  call Call.vkDestroyFence
  call Call.vkDestroyCommandPool
  call Call.vkDestroyDescriptorPool
  call Call.vkDestroyPipeline
  call Call.vkDestroyShaderModule
  call Call.vkDestroyPipelineLayout
  call Call.vkDestroyDescriptorSetLayout
  call Call.vkDestroyBuffer
  call Call.vkFreeMemory
  call Call.vkDestroyDevice
  call Call.vkDestroyInstance

/-- The function `main` of the clear example; the value is the exit status. -/
def main (o : Outcomes) : Run Int := do
  setup o
  recordSubmitReadback o
  cleanup
  pure 0

/-- Outcomes in which every native call succeeds on the example device, the shader
file holds eight bytes and every word read back equals `value`. -/
def successOutcomes : Outcomes :=
  { createInstance := VK_SUCCESS, enumerateCount := VK_SUCCESS, devices := [exampleDevice],
    enumerateList := VK_SUCCESS, createDevice := VK_SUCCESS, createBuffer := VK_SUCCESS,
    requirements := ⟨4096, 16, 0b011⟩, allocateMemory := VK_SUCCESS,
    bindBufferMemory := VK_SUCCESS, mapMemory := VK_SUCCESS,
    createDescriptorSetLayout := VK_SUCCESS, createPipelineLayout := VK_SUCCESS,
    shaderFile := some [3, 2, 35, 7, 0, 0, 1, 0], createShaderModule := VK_SUCCESS,
    createComputePipelines := VK_SUCCESS, createDescriptorPool := VK_SUCCESS,
    allocateDescriptorSets := VK_SUCCESS, createCommandPool := VK_SUCCESS,
    allocateCommandBuffers := VK_SUCCESS, beginCommandBuffer := VK_SUCCESS,
    endCommandBuffer := VK_SUCCESS, createFence := VK_SUCCESS, queueSubmit := VK_SUCCESS,
    waitForFences := VK_SUCCESS, mapMemoryReadback := VK_SUCCESS,
    readback := fun _ => value }

/-- The piece `m` of the program, run after any calls `s`, keeps `s` and adds only
calls that satisfy `P`. -/
def Emits {α : Type} (P : Call → Prop) (m : Run α) : Prop :=
  ∀ s, ∃ t, (m s).2 = s ++ t ∧ ∀ c ∈ t, P c

/-- What the specification says of a call made before the cleanup: it releases
nothing; a begin of the command buffer carries the flags zero; a dispatch has the
counts `(groupCountX N, 1, 1)`; the pipeline layout declares the push-constant range
at offset 0 of size `sizeofPushConstants` and the push constants are uploaded with
that offset and size; the shader module is created with the size of the shader file
as code size. -/
def BodyCall (o : Outcomes) (c : Call) : Prop :=
  c.isRelease = false ∧
  (∀ f, c = Call.vkBeginCommandBuffer f → f = 0) ∧
  (∀ x y z, c = Call.vkCmdDispatch x y z → x = groupCountX N ∧ y = 1 ∧ z = 1) ∧
  (∀ off sz, c = Call.vkCreatePipelineLayout off sz → off = 0 ∧ sz = sizeofPushConstants) ∧
  (∀ off sz v, c = Call.vkCmdPushConstants off sz v → off = 0 ∧ sz = sizeofPushConstants) ∧
  (∀ codeSize, c = Call.vkCreateShaderModule codeSize →
    ∃ bytes, o.shaderFile = some bytes ∧ codeSize = bytes.length)

end clear

namespace melkior.engine

/-! ## Predicates of the specification -/

/-- The specification of a suitable memory type: bit `i` of the bitmask is set and the
type has every required property. -/
def SuitableMemoryType (phys : VkPhysicalDevice) (B P i : Nat) : Prop :=
  B.testBit i = true ∧ (phys.memoryProperties.memoryTypeAt i).propertyFlags &&& P = P

instance (phys : VkPhysicalDevice) (B P i : Nat) : Decidable (SuitableMemoryType phys B P i) := by
  unfold SuitableMemoryType
  infer_instance

/-- The family can serve compute work: it has at least one queue and its flags include
the compute bit (bit 1, `VK_QUEUE_COMPUTE_BIT`). -/
def UsableComputeFamily (q : VkQueueFamilyProperties) : Prop :=
  0 < q.queueCount ∧ q.queueFlags.testBit 1 = true

instance (q : VkQueueFamilyProperties) : Decidable (UsableComputeFamily q) := by
  unfold UsableComputeFamily
  infer_instance

/-! ## Auxiliary facts -/

theorem and_shl32_ne_zero (B i : Nat) (hi : i < 32) :
    (B &&& shl32 1 i != 0) = B.testBit i := by
  have hpow : shl32 1 i = 2 ^ i := by
    unfold shl32
    rw [Nat.one_shiftLeft]
    exact Nat.mod_eq_of_lt (Nat.pow_lt_pow_right (by decide) hi)
  rw [hpow]
  cases hb : B.testBit i
  · have hz : B &&& 2 ^ i = 0 := by
      apply Nat.eq_of_testBit_eq
      intro j
      rw [Nat.testBit_and, Nat.testBit_two_pow, Nat.zero_testBit]
      by_cases hij : i = j
      · subst hij; simp [hb]
      · simp [hij]
    simp [hz]
  · have hne : B &&& 2 ^ i ≠ 0 := by
      intro hz
      have h1 : (B &&& 2 ^ i).testBit i = true := by
        rw [Nat.testBit_and, Nat.testBit_two_pow]; simp [hb]
      rw [hz, Nat.zero_testBit] at h1
      exact Bool.noConfusion h1
    simpa using hne

theorem memoryTypeMatches_iff (phys : VkPhysicalDevice) (B P i : Nat) (hi : i < 32) :
    memoryTypeMatches phys.memoryProperties B P i = true ↔ SuitableMemoryType phys B P i := by
  unfold memoryTypeMatches SuitableMemoryType
  rw [and_shl32_ne_zero B i hi]
  simp

theorem findMemoryTypeIndexLoop_value (mp : VkPhysicalDeviceMemoryProperties) (B P : Nat) :
    ∀ (n i j : Nat), findMemoryTypeIndexLoop mp B P n i = Result.value j →
      i ≤ j ∧ j < i + n ∧ memoryTypeMatches mp B P j = true ∧
      ∀ k, i ≤ k → k < j → memoryTypeMatches mp B P k = false := by
  intro n
  induction n with
  | zero => intro i j h; simp [findMemoryTypeIndexLoop] at h
  | succ n ih =>
    intro i j h
    unfold findMemoryTypeIndexLoop at h
    by_cases hm : memoryTypeMatches mp B P i = true
    · rw [if_pos hm] at h
      injection h with h
      subst h
      exact ⟨Nat.le_refl _, by omega, hm, fun k h1 h2 => by omega⟩
    · rw [if_neg hm] at h
      obtain ⟨h1, h2, h3, h4⟩ := ih (i + 1) j h
      refine ⟨by omega, by omega, h3, ?_⟩
      intro k hk1 hk2
      by_cases hki : k = i
      · subst hki; simpa using hm
      · exact h4 k (by omega) hk2

theorem findMemoryTypeIndexLoop_error (mp : VkPhysicalDeviceMemoryProperties) (B P : Nat) :
    ∀ (n i : Nat) (err : VkResult), findMemoryTypeIndexLoop mp B P n i = Result.error err →
      err = VK_ERROR_MEMORY_MAP_FAILED ∧
      ∀ k, i ≤ k → k < i + n → memoryTypeMatches mp B P k = false := by
  intro n
  induction n with
  | zero =>
    intro i err h
    simp only [findMemoryTypeIndexLoop] at h
    injection h with h
    exact ⟨h.symm, fun k h1 h2 => by omega⟩
  | succ n ih =>
    intro i err h
    unfold findMemoryTypeIndexLoop at h
    by_cases hm : memoryTypeMatches mp B P i = true
    · rw [if_pos hm] at h
      exact Result.noConfusion h
    · rw [if_neg hm] at h
      obtain ⟨h1, h2⟩ := ih (i + 1) err h
      refine ⟨h1, ?_⟩
      intro k hk1 hk2
      by_cases hki : k = i
      · subst hki; simpa using hm
      · exact h2 k (by omega) (by omega)

theorem clear_loop_eq (mp : VkPhysicalDeviceMemoryProperties) (B P : Nat) :
    ∀ (n i : Nat), clear.findMemoryTypeIndexLoop mp B P n i =
      match findMemoryTypeIndexLoop mp B P n i with
      | Result.value j => Except.ok j
      | Result.error _ => Except.error "No suitable memory type found" := by
  intro n
  induction n with
  | zero => intro i; rfl
  | succ n ih =>
    intro i
    unfold clear.findMemoryTypeIndexLoop findMemoryTypeIndexLoop
    by_cases hm : memoryTypeMatches mp B P i = true
    · have hm2 := hm
      unfold memoryTypeMatches at hm2
      rw [if_pos hm, if_pos hm2]
    · have hm2 := hm
      unfold memoryTypeMatches at hm2
      rw [if_neg hm, if_neg hm2]
      exact ih (i + 1)

theorem findMemoryTypeIndex_cases (phys : VkPhysicalDevice) (B P : Nat)
    (hcount : phys.memoryProperties.memoryTypeCount ≤ VK_MAX_MEMORY_TYPES) :
    (∃ j, findMemoryTypeIndex phys B P = Result.value j ∧
      j < phys.memoryProperties.memoryTypeCount ∧ SuitableMemoryType phys B P j ∧
      ∀ k, k < j → ¬ SuitableMemoryType phys B P k) ∨
    (findMemoryTypeIndex phys B P = Result.error VK_ERROR_MEMORY_MAP_FAILED ∧
      ∀ k, k < phys.memoryProperties.memoryTypeCount → ¬ SuitableMemoryType phys B P k) := by
  have h32 : phys.memoryProperties.memoryTypeCount ≤ 32 := hcount
  cases hres : findMemoryTypeIndex phys B P with
  | value j =>
    left
    obtain ⟨_, h2, h3, h4⟩ :=
      findMemoryTypeIndexLoop_value phys.memoryProperties B P _ 0 j hres
    refine ⟨j, rfl, by omega, (memoryTypeMatches_iff phys B P j (by omega)).1 h3, ?_⟩
    intro k hk hs
    have hf := h4 k (Nat.zero_le k) hk
    rw [(memoryTypeMatches_iff phys B P k (by omega)).2 hs] at hf
    exact Bool.noConfusion hf
  | error err =>
    right
    obtain ⟨h1, h2⟩ := findMemoryTypeIndexLoop_error phys.memoryProperties B P _ 0 err hres
    refine ⟨by rw [h1], ?_⟩
    intro k hk hs
    have hf := h2 k (Nat.zero_le k) (by omega)
    rw [(memoryTypeMatches_iff phys B P k (by omega)).2 hs] at hf
    exact Bool.noConfusion hf

theorem clear_findMemoryTypeIndex_of_value (phys : VkPhysicalDevice) (B P j : Nat)
    (h : findMemoryTypeIndex phys B P = Result.value j) :
    clear.findMemoryTypeIndex phys B P = Except.ok j := by
  unfold clear.findMemoryTypeIndex
  unfold findMemoryTypeIndex at h
  rw [clear_loop_eq, h]

/-! ## Memory-type resolution -/

/-- C1: when some index below the memory-type count has its bit set in the bitmask `B`
and carries every property of `P`, `findMemoryTypeIndex` (the engine one, and the one
of the clear example) returns a valid result whose value is the smallest such index. -/
theorem findMemoryTypeIndex_returns_lowest (phys : VkPhysicalDevice) (B P : Nat)
    (hcount : phys.memoryProperties.memoryTypeCount ≤ VK_MAX_MEMORY_TYPES)
    (hex : ∃ i, i < phys.memoryProperties.memoryTypeCount ∧ B.testBit i = true ∧
      (phys.memoryProperties.memoryTypeAt i).propertyFlags &&& P = P) :
    ∃ j, findMemoryTypeIndex phys B P = Result.value j ∧
      (findMemoryTypeIndex phys B P).isValid = true ∧
      clear.findMemoryTypeIndex phys B P = Except.ok j ∧
      j < phys.memoryProperties.memoryTypeCount ∧ B.testBit j = true ∧
      (phys.memoryProperties.memoryTypeAt j).propertyFlags &&& P = P ∧
      ∀ k, k < phys.memoryProperties.memoryTypeCount → B.testBit k = true →
        (phys.memoryProperties.memoryTypeAt k).propertyFlags &&& P = P → j ≤ k := by
  obtain ⟨i, hi, hb, hp⟩ := hex
  rcases findMemoryTypeIndex_cases phys B P hcount with ⟨j, hj, hlt, hs, hmin⟩ | ⟨_, hnone⟩
  · refine ⟨j, hj, by rw [hj]; rfl, clear_findMemoryTypeIndex_of_value phys B P j hj, hlt,
      hs.1, hs.2, ?_⟩
    intro k _ hkb hkp
    by_contra hlt2
    exact hmin k (by omega) ⟨hkb, hkp⟩
  · exact absurd ⟨hb, hp⟩ (hnone i hi)

/-- C1, the example of the specification: memory types host-visible, host-visible and
coherent, device-local; bitmask `0b011`; required host-visible and coherent. The
result is index 1. -/
theorem findMemoryTypeIndex_returns_lowest_witness :
    exampleDevice.memoryProperties.memoryTypeCount ≤ VK_MAX_MEMORY_TYPES ∧
    findMemoryTypeIndex exampleDevice 0b011
      (VK_MEMORY_PROPERTY_HOST_VISIBLE_BIT ||| VK_MEMORY_PROPERTY_HOST_COHERENT_BIT)
      = Result.value 1 ∧
    clear.findMemoryTypeIndex exampleDevice 0b011
      (VK_MEMORY_PROPERTY_HOST_VISIBLE_BIT ||| VK_MEMORY_PROPERTY_HOST_COHERENT_BIT)
      = Except.ok 1 := by
  obtain ⟨j, h1, _, h3, _, hb, hp, hmin⟩ :=
    findMemoryTypeIndex_returns_lowest exampleDevice 0b011
      (VK_MEMORY_PROPERTY_HOST_VISIBLE_BIT ||| VK_MEMORY_PROPERTY_HOST_COHERENT_BIT)
      (by decide) ⟨1, by decide, by decide, by decide⟩
  have hle : j ≤ 1 := hmin 1 (by decide) (by decide) (by decide)
  have hne : j ≠ 0 := by
    intro h0
    subst h0
    revert hp
    decide
  have hj : j = 1 := by omega
  subst hj
  exact ⟨by decide, h1, h3⟩

/-- C2 (counterexample): the error carried by a failing `findMemoryTypeIndex` is not a
code of its own. On the example device, bitmask `0b100`, required host-visible and
coherent, the result is the native code `VK_ERROR_MEMORY_MAP_FAILED`; and
`createBuffer` hands the same error to its caller when the resolver has succeeded and
`vkAllocateMemory` reports that native code, so the code does not single out
"no suitable memory type". -/
theorem findMemoryTypeIndex_error_code_not_dedicated :
    findMemoryTypeIndex exampleDevice 0b100 6 = Result.error VK_ERROR_MEMORY_MAP_FAILED ∧
    ¬ (∀ o : CreateBufferOutcomes,
        (exampleEngine.createBuffer o 4096 3 6 []).1 = Result.error VK_ERROR_MEMORY_MAP_FAILED →
        (findMemoryTypeIndex exampleEngine.m_physicalDevice o.requirements.memoryTypeBits
          6).isValid = false) := by
  refine ⟨by decide, ?_⟩
  intro h
  have h1 := h ⟨VK_SUCCESS, 10, ⟨4096, 16, 0b011⟩, VK_ERROR_MEMORY_MAP_FAILED, 11, VK_SUCCESS⟩
    (by decide)
  revert h1
  decide

/-- C2 (amended): the engine `findMemoryTypeIndex` returns an error result if and only
if no index below the memory-type count has its bit set in `B` and carries every
property of `P`; the error it then carries is the native code
`VK_ERROR_MEMORY_MAP_FAILED`. -/
theorem findMemoryTypeIndex_error_iff (phys : VkPhysicalDevice) (B P : Nat)
    (hcount : phys.memoryProperties.memoryTypeCount ≤ VK_MAX_MEMORY_TYPES) :
    ((findMemoryTypeIndex phys B P).isValid = false ↔
      ¬ ∃ i, i < phys.memoryProperties.memoryTypeCount ∧ B.testBit i = true ∧
        (phys.memoryProperties.memoryTypeAt i).propertyFlags &&& P = P) ∧
    ((findMemoryTypeIndex phys B P).isValid = false →
      findMemoryTypeIndex phys B P = Result.error VK_ERROR_MEMORY_MAP_FAILED) := by
  rcases findMemoryTypeIndex_cases phys B P hcount with ⟨j, hj, hlt, hs, _⟩ | ⟨herr, hnone⟩
  · rw [hj]
    refine ⟨⟨fun h => Bool.noConfusion h, fun h => absurd ⟨j, hlt, hs.1, hs.2⟩ h⟩,
      fun h => Bool.noConfusion h⟩
  · rw [herr]
    refine ⟨⟨fun _ => ?_, fun _ => rfl⟩, fun _ => rfl⟩
    rintro ⟨i, hi, hb, hp⟩
    exact hnone i hi ⟨hb, hp⟩

/-- C2 (amended), on the example device: bit 2 alone is allowed and the device-local
type lacks the host properties, so the result is the error
`VK_ERROR_MEMORY_MAP_FAILED`. -/
theorem findMemoryTypeIndex_error_iff_witness :
    exampleDevice.memoryProperties.memoryTypeCount ≤ VK_MAX_MEMORY_TYPES ∧
    (findMemoryTypeIndex exampleDevice 0b100 6).isValid = false ∧
    findMemoryTypeIndex exampleDevice 0b100 6 = Result.error VK_ERROR_MEMORY_MAP_FAILED :=
  ⟨by decide, by decide,
    (findMemoryTypeIndex_error_iff exampleDevice 0b100 6 (by decide)).2 (by decide)⟩

/-! ## Buffer creation and release -/

theorem createBuffer_of_create_failed (e : Engine) (o : CreateBufferOutcomes)
    (size usage memProps : Nat) (s : List NativeCall)
    (h1 : o.createBufferResult ≠ VK_SUCCESS) :
    e.createBuffer o size usage memProps s =
      (Result.error o.createBufferResult,
        s ++ [NativeCall.vkCreateBuffer e.m_device size usage VK_SHARING_MODE_EXCLUSIVE
          o.createBufferResult o.bufferHandle]) := by
  simp [Engine.createBuffer, h1]

theorem createBuffer_of_resolve_failed (e : Engine) (o : CreateBufferOutcomes)
    (size usage memProps : Nat) (s : List NativeCall)
    (h1 : o.createBufferResult = VK_SUCCESS) (err : VkResult)
    (hidx : findMemoryTypeIndex e.m_physicalDevice o.requirements.memoryTypeBits memProps
      = Result.error err) :
    e.createBuffer o size usage memProps s =
      (Result.error err,
        s ++ [NativeCall.vkCreateBuffer e.m_device size usage VK_SHARING_MODE_EXCLUSIVE
            VK_SUCCESS o.bufferHandle,
          NativeCall.vkGetBufferMemoryRequirements e.m_device o.bufferHandle,
          NativeCall.vkGetPhysicalDeviceMemoryProperties e.m_physicalDevice.handle]) := by
  simp [Engine.createBuffer, h1, hidx]

theorem createBuffer_of_allocate_failed (e : Engine) (o : CreateBufferOutcomes)
    (size usage memProps : Nat) (s : List NativeCall)
    (h1 : o.createBufferResult = VK_SUCCESS) (idx : Nat)
    (hidx : findMemoryTypeIndex e.m_physicalDevice o.requirements.memoryTypeBits memProps
      = Result.value idx)
    (h2 : o.allocateResult ≠ VK_SUCCESS) :
    e.createBuffer o size usage memProps s =
      (Result.error o.allocateResult,
        s ++ [NativeCall.vkCreateBuffer e.m_device size usage VK_SHARING_MODE_EXCLUSIVE
            VK_SUCCESS o.bufferHandle,
          NativeCall.vkGetBufferMemoryRequirements e.m_device o.bufferHandle,
          NativeCall.vkGetPhysicalDeviceMemoryProperties e.m_physicalDevice.handle,
          NativeCall.vkAllocateMemory e.m_device o.requirements.size idx
            o.allocateResult o.memoryHandle]) := by
  simp [Engine.createBuffer, h1, hidx, h2]

theorem createBuffer_of_bind_failed (e : Engine) (o : CreateBufferOutcomes)
    (size usage memProps : Nat) (s : List NativeCall)
    (h1 : o.createBufferResult = VK_SUCCESS) (idx : Nat)
    (hidx : findMemoryTypeIndex e.m_physicalDevice o.requirements.memoryTypeBits memProps
      = Result.value idx)
    (h2 : o.allocateResult = VK_SUCCESS) (h3 : o.bindResult ≠ VK_SUCCESS) :
    e.createBuffer o size usage memProps s =
      (Result.error o.bindResult,
        s ++ [NativeCall.vkCreateBuffer e.m_device size usage VK_SHARING_MODE_EXCLUSIVE
            VK_SUCCESS o.bufferHandle,
          NativeCall.vkGetBufferMemoryRequirements e.m_device o.bufferHandle,
          NativeCall.vkGetPhysicalDeviceMemoryProperties e.m_physicalDevice.handle,
          NativeCall.vkAllocateMemory e.m_device o.requirements.size idx
            VK_SUCCESS o.memoryHandle,
          NativeCall.vkBindBufferMemory e.m_device o.bufferHandle o.memoryHandle 0
            o.bindResult]) := by
  simp [Engine.createBuffer, h1, hidx, h2, h3]

theorem createBuffer_of_success (e : Engine) (o : CreateBufferOutcomes)
    (size usage memProps : Nat) (s : List NativeCall)
    (h1 : o.createBufferResult = VK_SUCCESS) (idx : Nat)
    (hidx : findMemoryTypeIndex e.m_physicalDevice o.requirements.memoryTypeBits memProps
      = Result.value idx)
    (h2 : o.allocateResult = VK_SUCCESS) (h3 : o.bindResult = VK_SUCCESS) :
    e.createBuffer o size usage memProps s =
      (Result.value ⟨o.bufferHandle, o.memoryHandle, size⟩,
        s ++ [NativeCall.vkCreateBuffer e.m_device size usage VK_SHARING_MODE_EXCLUSIVE
            VK_SUCCESS o.bufferHandle,
          NativeCall.vkGetBufferMemoryRequirements e.m_device o.bufferHandle,
          NativeCall.vkGetPhysicalDeviceMemoryProperties e.m_physicalDevice.handle,
          NativeCall.vkAllocateMemory e.m_device o.requirements.size idx
            VK_SUCCESS o.memoryHandle,
          NativeCall.vkBindBufferMemory e.m_device o.bufferHandle o.memoryHandle 0
            VK_SUCCESS]) := by
  simp [Engine.createBuffer, h1, hidx, h2, h3]

/-- C3: `createBuffer` returns a valid result exactly when buffer creation,
memory-type resolution, memory allocation and memory binding all succeed; otherwise
the result carries the error of the first step that failed, in that order. -/
theorem createBuffer_valid_iff (e : Engine) (o : CreateBufferOutcomes)
    (size usage memProps : Nat) (s : List NativeCall) :
    ((e.createBuffer o size usage memProps s).1.isValid = true ↔
      (o.createBufferResult = VK_SUCCESS ∧
        (findMemoryTypeIndex e.m_physicalDevice o.requirements.memoryTypeBits
          memProps).isValid = true ∧
        o.allocateResult = VK_SUCCESS ∧ o.bindResult = VK_SUCCESS)) ∧
    (o.createBufferResult ≠ VK_SUCCESS →
      (e.createBuffer o size usage memProps s).1 = Result.error o.createBufferResult) ∧
    (o.createBufferResult = VK_SUCCESS →
      ∀ err, findMemoryTypeIndex e.m_physicalDevice o.requirements.memoryTypeBits memProps
          = Result.error err →
        (e.createBuffer o size usage memProps s).1 = Result.error err) ∧
    (o.createBufferResult = VK_SUCCESS →
      (findMemoryTypeIndex e.m_physicalDevice o.requirements.memoryTypeBits
        memProps).isValid = true →
      o.allocateResult ≠ VK_SUCCESS →
      (e.createBuffer o size usage memProps s).1 = Result.error o.allocateResult) ∧
    (o.createBufferResult = VK_SUCCESS →
      (findMemoryTypeIndex e.m_physicalDevice o.requirements.memoryTypeBits
        memProps).isValid = true →
      o.allocateResult = VK_SUCCESS → o.bindResult ≠ VK_SUCCESS →
      (e.createBuffer o size usage memProps s).1 = Result.error o.bindResult) := by
  by_cases h1 : o.createBufferResult = VK_SUCCESS
  · cases hidx : findMemoryTypeIndex e.m_physicalDevice o.requirements.memoryTypeBits memProps with
    | error err =>
      rw [createBuffer_of_resolve_failed e o size usage memProps s h1 err hidx]
      simp [h1, Result.isValid]
    | value idx =>
      by_cases h2 : o.allocateResult = VK_SUCCESS
      · by_cases h3 : o.bindResult = VK_SUCCESS
        · rw [createBuffer_of_success e o size usage memProps s h1 idx hidx h2 h3]
          simp [h1, h2, h3, Result.isValid]
        · rw [createBuffer_of_bind_failed e o size usage memProps s h1 idx hidx h2 h3]
          simp [h1, h2, h3, Result.isValid]
      · rw [createBuffer_of_allocate_failed e o size usage memProps s h1 idx hidx h2]
        simp [h1, h2, Result.isValid]
  · rw [createBuffer_of_create_failed e o size usage memProps s h1]
    simp [h1, Result.isValid]

theorem findMemoryTypeIndex_invalid (phys : VkPhysicalDevice) (B P : Nat)
    (h : (findMemoryTypeIndex phys B P).isValid = false) :
    findMemoryTypeIndex phys B P = Result.error VK_ERROR_MEMORY_MAP_FAILED := by
  cases hres : findMemoryTypeIndex phys B P with
  | value j => rw [hres] at h; exact Bool.noConfusion h
  | error err =>
    rw [(findMemoryTypeIndexLoop_error phys.memoryProperties B P _ 0 err hres).1]

theorem liveBuffers_append (s t : List NativeCall) :
    liveBuffers (s ++ t) = t.foldl liveBuffersStep (liveBuffers s) := by
  unfold liveBuffers
  rw [List.foldl_append]

theorem liveMemory_append (s t : List NativeCall) :
    liveMemory (s ++ t) = t.foldl liveMemoryStep (liveMemory s) := by
  unfold liveMemory
  rw [List.foldl_append]

/-- C4: a failing `createBuffer` has made exactly the calls up to and including the
failing step, and none of them releases an object. When no memory type is suitable
it returns the error of the resolver after `vkCreateBuffer`, the requirements query and
the memory-properties query, nothing has been allocated or bound, and the buffer object
it created is still live. -/
theorem createBuffer_failure_calls (e : Engine) (o : CreateBufferOutcomes)
    (size usage memProps : Nat) (s : List NativeCall) :
    (o.createBufferResult ≠ VK_SUCCESS →
      (e.createBuffer o size usage memProps s).2 =
        s ++ [NativeCall.vkCreateBuffer e.m_device size usage VK_SHARING_MODE_EXCLUSIVE
          o.createBufferResult o.bufferHandle]) ∧
    (o.createBufferResult = VK_SUCCESS →
      e.m_physicalDevice.memoryProperties.memoryTypeCount ≤ VK_MAX_MEMORY_TYPES →
      (¬ ∃ i, i < e.m_physicalDevice.memoryProperties.memoryTypeCount ∧
        o.requirements.memoryTypeBits.testBit i = true ∧
        (e.m_physicalDevice.memoryProperties.memoryTypeAt i).propertyFlags &&& memProps
          = memProps) →
      (∃ err, findMemoryTypeIndex e.m_physicalDevice o.requirements.memoryTypeBits memProps
          = Result.error err ∧
        (e.createBuffer o size usage memProps s).1 = Result.error err) ∧
      (e.createBuffer o size usage memProps s).1 = Result.error VK_ERROR_MEMORY_MAP_FAILED ∧
      (e.createBuffer o size usage memProps s).2 =
        s ++ [NativeCall.vkCreateBuffer e.m_device size usage VK_SHARING_MODE_EXCLUSIVE
            VK_SUCCESS o.bufferHandle,
          NativeCall.vkGetBufferMemoryRequirements e.m_device o.bufferHandle,
          NativeCall.vkGetPhysicalDeviceMemoryProperties e.m_physicalDevice.handle] ∧
      o.bufferHandle ∈ liveBuffers (e.createBuffer o size usage memProps s).2 ∧
      liveMemory (e.createBuffer o size usage memProps s).2 = liveMemory s) ∧
    (o.createBufferResult = VK_SUCCESS →
      ∀ idx, findMemoryTypeIndex e.m_physicalDevice o.requirements.memoryTypeBits memProps
          = Result.value idx →
        o.allocateResult ≠ VK_SUCCESS →
        (e.createBuffer o size usage memProps s).2 =
          s ++ [NativeCall.vkCreateBuffer e.m_device size usage VK_SHARING_MODE_EXCLUSIVE
              VK_SUCCESS o.bufferHandle,
            NativeCall.vkGetBufferMemoryRequirements e.m_device o.bufferHandle,
            NativeCall.vkGetPhysicalDeviceMemoryProperties e.m_physicalDevice.handle,
            NativeCall.vkAllocateMemory e.m_device o.requirements.size idx
              o.allocateResult o.memoryHandle]) ∧
    (o.createBufferResult = VK_SUCCESS →
      ∀ idx, findMemoryTypeIndex e.m_physicalDevice o.requirements.memoryTypeBits memProps
          = Result.value idx →
        o.allocateResult = VK_SUCCESS → o.bindResult ≠ VK_SUCCESS →
        (e.createBuffer o size usage memProps s).2 =
          s ++ [NativeCall.vkCreateBuffer e.m_device size usage VK_SHARING_MODE_EXCLUSIVE
              VK_SUCCESS o.bufferHandle,
            NativeCall.vkGetBufferMemoryRequirements e.m_device o.bufferHandle,
            NativeCall.vkGetPhysicalDeviceMemoryProperties e.m_physicalDevice.handle,
            NativeCall.vkAllocateMemory e.m_device o.requirements.size idx
              VK_SUCCESS o.memoryHandle,
            NativeCall.vkBindBufferMemory e.m_device o.bufferHandle o.memoryHandle 0
              o.bindResult]) ∧
    ((e.createBuffer o size usage memProps s).1.isValid = false →
      ∃ t, (e.createBuffer o size usage memProps s).2 = s ++ t ∧
        ∀ c ∈ t, c.isRelease = false) := by
  by_cases h1 : o.createBufferResult = VK_SUCCESS
  · cases hidx : findMemoryTypeIndex e.m_physicalDevice o.requirements.memoryTypeBits memProps with
    | error err =>
      have herr : err = VK_ERROR_MEMORY_MAP_FAILED := by
        have := findMemoryTypeIndex_invalid e.m_physicalDevice o.requirements.memoryTypeBits
          memProps (by rw [hidx]; rfl)
        rw [hidx] at this
        injection this
      subst herr
      rw [createBuffer_of_resolve_failed e o size usage memProps s h1 _ hidx]
      refine ⟨fun h => absurd h1 h, fun _ _ _ => ?_, fun _ idx h => Result.noConfusion h,
        fun _ idx h => Result.noConfusion h, fun _ => ⟨_, rfl, ?_⟩⟩
      · refine ⟨⟨_, rfl, rfl⟩, rfl, rfl, ?_, ?_⟩
        · simp [liveBuffers_append, liveBuffersStep]
        · simp [liveMemory_append, liveMemoryStep]
      · simp [NativeCall.isRelease]
    | value idx =>
      have hsome : ∃ i, i < e.m_physicalDevice.memoryProperties.memoryTypeCount ∧
          memoryTypeMatches e.m_physicalDevice.memoryProperties o.requirements.memoryTypeBits
            memProps i = true := by
        obtain ⟨_, h2, h3, _⟩ := findMemoryTypeIndexLoop_value
          e.m_physicalDevice.memoryProperties o.requirements.memoryTypeBits memProps _ 0 idx hidx
        exact ⟨idx, by omega, h3⟩
      obtain ⟨i0, hi0, hm0⟩ := hsome
      refine ⟨fun h => absurd h1 h, fun _ hc hno => ?_, ?_, ?_, ?_⟩
      · exfalso
        apply hno
        have hc32 : e.m_physicalDevice.memoryProperties.memoryTypeCount ≤ 32 := hc
        have := (memoryTypeMatches_iff e.m_physicalDevice o.requirements.memoryTypeBits
          memProps i0 (by omega)).1 hm0
        exact ⟨i0, hi0, this.1, this.2⟩
      · intro _ idx2 hv h2
        injection hv with hv
        subst hv
        rw [createBuffer_of_allocate_failed e o size usage memProps s h1 idx hidx h2]
      · intro _ idx2 hv h2 h3
        injection hv with hv
        subst hv
        rw [createBuffer_of_bind_failed e o size usage memProps s h1 idx hidx h2 h3]
      · by_cases h2 : o.allocateResult = VK_SUCCESS
        · by_cases h3 : o.bindResult = VK_SUCCESS
          · rw [createBuffer_of_success e o size usage memProps s h1 idx hidx h2 h3]
            intro h
            exact Bool.noConfusion h
          · rw [createBuffer_of_bind_failed e o size usage memProps s h1 idx hidx h2 h3]
            intro _
            refine ⟨_, rfl, ?_⟩
            simp [NativeCall.isRelease]
        · rw [createBuffer_of_allocate_failed e o size usage memProps s h1 idx hidx h2]
          intro _
          refine ⟨_, rfl, ?_⟩
          simp [NativeCall.isRelease]
  · rw [createBuffer_of_create_failed e o size usage memProps s h1]
    refine ⟨fun _ => rfl, fun h => absurd h h1, fun h => absurd h h1,
      fun h => absurd h h1, fun _ => ⟨_, rfl, ?_⟩⟩
    simp [NativeCall.isRelease]

/-- C5 (counterexample): two failing calls of `createBuffer` that fail at different
steps and return the same error. The first fails in `vkCreateBuffer`, the second
creates the buffer, resolves memory type 1 and fails in `vkAllocateMemory`; the driver
reports `VK_ERROR_OUT_OF_DEVICE_MEMORY` both times and both results carry that code. -/
theorem createBuffer_error_does_not_identify_step :
    exampleEngine.createBuffer
        ⟨VK_ERROR_OUT_OF_DEVICE_MEMORY, 0, ⟨0, 0, 0⟩, VK_SUCCESS, 0, VK_SUCCESS⟩ 4096 3 6 [] =
      (Result.error VK_ERROR_OUT_OF_DEVICE_MEMORY,
        [NativeCall.vkCreateBuffer 2 4096 3 0 VK_ERROR_OUT_OF_DEVICE_MEMORY 0]) ∧
    exampleEngine.createBuffer
        ⟨VK_SUCCESS, 10, ⟨4096, 16, 0b011⟩, VK_ERROR_OUT_OF_DEVICE_MEMORY, 0, VK_SUCCESS⟩
        4096 3 6 [] =
      (Result.error VK_ERROR_OUT_OF_DEVICE_MEMORY,
        [NativeCall.vkCreateBuffer 2 4096 3 0 VK_SUCCESS 10,
          NativeCall.vkGetBufferMemoryRequirements 2 10,
          NativeCall.vkGetPhysicalDeviceMemoryProperties 7,
          NativeCall.vkAllocateMemory 2 4096 1 VK_ERROR_OUT_OF_DEVICE_MEMORY 0]) := by
  constructor <;> decide

/-- C5 (amended): the error of a failing `createBuffer` is the raw code reported by the
native call that failed (`vkCreateBuffer`, `vkAllocateMemory`, `vkBindBufferMemory`),
and `VK_ERROR_MEMORY_MAP_FAILED` when the memory-type resolution failed. -/
theorem createBuffer_error_is_raw_code (e : Engine) (o : CreateBufferOutcomes)
    (size usage memProps : Nat) (s : List NativeCall)
    (hfail : (e.createBuffer o size usage memProps s).1.isValid = false) :
    (o.createBufferResult ≠ VK_SUCCESS ∧
      (e.createBuffer o size usage memProps s).1 = Result.error o.createBufferResult) ∨
    (o.createBufferResult = VK_SUCCESS ∧
      (findMemoryTypeIndex e.m_physicalDevice o.requirements.memoryTypeBits
        memProps).isValid = false ∧
      (e.createBuffer o size usage memProps s).1 = Result.error VK_ERROR_MEMORY_MAP_FAILED) ∨
    (o.createBufferResult = VK_SUCCESS ∧
      (findMemoryTypeIndex e.m_physicalDevice o.requirements.memoryTypeBits
        memProps).isValid = true ∧
      o.allocateResult ≠ VK_SUCCESS ∧
      (e.createBuffer o size usage memProps s).1 = Result.error o.allocateResult) ∨
    (o.createBufferResult = VK_SUCCESS ∧
      (findMemoryTypeIndex e.m_physicalDevice o.requirements.memoryTypeBits
        memProps).isValid = true ∧
      o.allocateResult = VK_SUCCESS ∧ o.bindResult ≠ VK_SUCCESS ∧
      (e.createBuffer o size usage memProps s).1 = Result.error o.bindResult) := by
  by_cases h1 : o.createBufferResult = VK_SUCCESS
  · cases hidx : findMemoryTypeIndex e.m_physicalDevice o.requirements.memoryTypeBits memProps with
    | error err =>
      have herr : err = VK_ERROR_MEMORY_MAP_FAILED := by
        have := findMemoryTypeIndex_invalid e.m_physicalDevice o.requirements.memoryTypeBits
          memProps (by rw [hidx]; rfl)
        rw [hidx] at this
        injection this
      subst herr
      rw [createBuffer_of_resolve_failed e o size usage memProps s h1 _ hidx]
      exact Or.inr (Or.inl ⟨h1, rfl, rfl⟩)
    | value idx =>
      by_cases h2 : o.allocateResult = VK_SUCCESS
      · by_cases h3 : o.bindResult = VK_SUCCESS
        · rw [createBuffer_of_success e o size usage memProps s h1 idx hidx h2 h3] at hfail
          exact Bool.noConfusion hfail
        · rw [createBuffer_of_bind_failed e o size usage memProps s h1 idx hidx h2 h3]
          exact Or.inr (Or.inr (Or.inr ⟨h1, rfl, h2, h3, rfl⟩))
      · rw [createBuffer_of_allocate_failed e o size usage memProps s h1 idx hidx h2]
        exact Or.inr (Or.inr (Or.inl ⟨h1, rfl, h2, rfl⟩))
  · rw [createBuffer_of_create_failed e o size usage memProps s h1]
    exact Or.inl ⟨h1, rfl⟩

/-- C5 (amended), on the example engine: the allocation reports
`VK_ERROR_OUT_OF_HOST_MEMORY` and that raw code is the error returned. -/
theorem createBuffer_error_is_raw_code_witness :
    (exampleEngine.createBuffer
        ⟨VK_SUCCESS, 10, ⟨4096, 16, 0b011⟩, VK_ERROR_OUT_OF_HOST_MEMORY, 0, VK_SUCCESS⟩
        4096 3 6 []).1.isValid = false ∧
    (exampleEngine.createBuffer
        ⟨VK_SUCCESS, 10, ⟨4096, 16, 0b011⟩, VK_ERROR_OUT_OF_HOST_MEMORY, 0, VK_SUCCESS⟩
        4096 3 6 []).1 = Result.error VK_ERROR_OUT_OF_HOST_MEMORY := by
  refine ⟨by decide, ?_⟩
  rcases createBuffer_error_is_raw_code exampleEngine
      ⟨VK_SUCCESS, 10, ⟨4096, 16, 0b011⟩, VK_ERROR_OUT_OF_HOST_MEMORY, 0, VK_SUCCESS⟩
      4096 3 6 [] (by decide) with h | h | h | h
  · exact absurd rfl h.1
  · exact absurd h.2.1 (by decide)
  · exact h.2.2.2
  · exact absurd h.2.2.2.1 (by decide)

/-- C6: when `createBuffer` succeeds, the returned `Buffer` holds the created buffer
handle, the allocated memory handle and the requested size; the buffer was created
with the requested size and usage, the memory was allocated with the size of the
memory requirements at the memory type index the resolver chose for the requirements
bitmask and the requested properties, and that memory was bound to that buffer at
offset 0. -/
theorem createBuffer_success (e : Engine) (o : CreateBufferOutcomes)
    (size usage memProps : Nat) (s : List NativeCall)
    (hvalid : (e.createBuffer o size usage memProps s).1.isValid = true) :
    ∃ idx, findMemoryTypeIndex e.m_physicalDevice o.requirements.memoryTypeBits memProps
        = Result.value idx ∧
      (e.createBuffer o size usage memProps s).1 =
        Result.value { _buffer := o.bufferHandle, _memory := o.memoryHandle, _size := size } ∧
      (e.createBuffer o size usage memProps s).2 =
        s ++ [NativeCall.vkCreateBuffer e.m_device size usage VK_SHARING_MODE_EXCLUSIVE
            VK_SUCCESS o.bufferHandle,
          NativeCall.vkGetBufferMemoryRequirements e.m_device o.bufferHandle,
          NativeCall.vkGetPhysicalDeviceMemoryProperties e.m_physicalDevice.handle,
          NativeCall.vkAllocateMemory e.m_device o.requirements.size idx
            VK_SUCCESS o.memoryHandle,
          NativeCall.vkBindBufferMemory e.m_device o.bufferHandle o.memoryHandle 0
            VK_SUCCESS] := by
  by_cases h1 : o.createBufferResult = VK_SUCCESS
  · cases hidx : findMemoryTypeIndex e.m_physicalDevice o.requirements.memoryTypeBits memProps with
    | error err =>
      rw [createBuffer_of_resolve_failed e o size usage memProps s h1 _ hidx] at hvalid
      exact Bool.noConfusion hvalid
    | value idx =>
      by_cases h2 : o.allocateResult = VK_SUCCESS
      · by_cases h3 : o.bindResult = VK_SUCCESS
        · rw [createBuffer_of_success e o size usage memProps s h1 idx hidx h2 h3]
          exact ⟨idx, rfl, rfl, rfl⟩
        · rw [createBuffer_of_bind_failed e o size usage memProps s h1 idx hidx h2 h3] at hvalid
          exact Bool.noConfusion hvalid
      · rw [createBuffer_of_allocate_failed e o size usage memProps s h1 idx hidx h2] at hvalid
        exact Bool.noConfusion hvalid
  · rw [createBuffer_of_create_failed e o size usage memProps s h1] at hvalid
    exact Bool.noConfusion hvalid

/-- C6, on the example engine: a 4096-byte buffer with host-visible, coherent memory. -/
theorem createBuffer_success_witness :
    (exampleEngine.createBuffer ⟨VK_SUCCESS, 10, ⟨4096, 16, 0b011⟩, VK_SUCCESS, 11, VK_SUCCESS⟩
      4096 3 6 []).1.isValid = true ∧
    ∃ idx, findMemoryTypeIndex exampleEngine.m_physicalDevice 0b011 6 = Result.value idx ∧
      (exampleEngine.createBuffer
        ⟨VK_SUCCESS, 10, ⟨4096, 16, 0b011⟩, VK_SUCCESS, 11, VK_SUCCESS⟩ 4096 3 6 []).1 =
        Result.value { _buffer := 10, _memory := 11, _size := 4096 } ∧
      (exampleEngine.createBuffer
        ⟨VK_SUCCESS, 10, ⟨4096, 16, 0b011⟩, VK_SUCCESS, 11, VK_SUCCESS⟩ 4096 3 6 []).2 =
        [] ++ [NativeCall.vkCreateBuffer 2 4096 3 VK_SHARING_MODE_EXCLUSIVE VK_SUCCESS 10,
          NativeCall.vkGetBufferMemoryRequirements 2 10,
          NativeCall.vkGetPhysicalDeviceMemoryProperties 7,
          NativeCall.vkAllocateMemory 2 4096 idx VK_SUCCESS 11,
          NativeCall.vkBindBufferMemory 2 10 11 0 VK_SUCCESS] :=
  ⟨by decide,
    createBuffer_success exampleEngine
      ⟨VK_SUCCESS, 10, ⟨4096, 16, 0b011⟩, VK_SUCCESS, 11, VK_SUCCESS⟩ 4096 3 6 [] (by decide)⟩

theorem mem_filter_ne (l : List Handle) (a h : Handle) :
    h ∈ l.filter (fun x => x != a) ↔ h ∈ l ∧ h ≠ a := by
  simp [List.mem_filter]

theorem filter_ne_of_not_mem (l : List Handle) (a : Handle) (h : a ∉ l) :
    l.filter (fun x => x != a) = l := by
  rw [List.filter_eq_self]
  intro x hx
  have : x ≠ a := fun hxa => h (hxa ▸ hx)
  simpa using this

theorem liveBuffers_destroyBuffer (e : Engine) (b : Buffer) (s : List NativeCall) :
    liveBuffers (e.destroyBuffer b s) = (liveBuffers s).filter (fun x => x != b._buffer) := by
  unfold Engine.destroyBuffer
  rw [liveBuffers_append]
  rfl

theorem liveMemory_destroyBuffer (e : Engine) (b : Buffer) (s : List NativeCall) :
    liveMemory (e.destroyBuffer b s) = (liveMemory s).filter (fun x => x != b._memory) := by
  unfold Engine.destroyBuffer
  rw [liveMemory_append]
  rfl

/-- C7: `destroyBuffer` issues exactly two native calls, in this order: destroy the
buffer object `b._buffer`, then free the device memory `b._memory`. No other buffer
object and no other memory allocation stops being live. -/
theorem destroyBuffer_calls (e : Engine) (b : Buffer) (s : List NativeCall) :
    (∃ t, e.destroyBuffer b s = s ++ t ∧ t.length = 2 ∧
      t[0]? = some (NativeCall.vkDestroyBuffer e.m_device b._buffer) ∧
      t[1]? = some (NativeCall.vkFreeMemory e.m_device b._memory)) ∧
    (∀ h, h ∈ liveBuffers (e.destroyBuffer b s) ↔ (h ∈ liveBuffers s ∧ h ≠ b._buffer)) ∧
    (∀ h, h ∈ liveMemory (e.destroyBuffer b s) ↔ (h ∈ liveMemory s ∧ h ≠ b._memory)) := by
  refine ⟨⟨_, rfl, rfl, rfl, rfl⟩, ?_, ?_⟩
  · intro h
    rw [liveBuffers_destroyBuffer, mem_filter_ne]
  · intro h
    rw [liveMemory_destroyBuffer, mem_filter_ne]

/-- C8: after a successful `createBuffer` whose buffer and memory handles are new (not
live before the call), `destroyBuffer` on the returned `Buffer` brings the live buffer
objects and the live memory allocations back to what they were before the pair of
calls. After any further calls `t` in between, `destroyBuffer` removes the buffer
object and the memory of this `Buffer` and nothing else. -/
theorem createBuffer_destroyBuffer_roundtrip (e : Engine) (o : CreateBufferOutcomes)
    (size usage memProps : Nat) (s : List NativeCall) (b : Buffer)
    (hcreate : (e.createBuffer o size usage memProps s).1 = Result.value b)
    (hfreshBuffer : b._buffer ∉ liveBuffers s) (hfreshMemory : b._memory ∉ liveMemory s) :
    liveBuffers (e.destroyBuffer b (e.createBuffer o size usage memProps s).2) = liveBuffers s ∧
    liveMemory (e.destroyBuffer b (e.createBuffer o size usage memProps s).2) = liveMemory s ∧
    b._buffer ∈ liveBuffers (e.createBuffer o size usage memProps s).2 ∧
    b._memory ∈ liveMemory (e.createBuffer o size usage memProps s).2 ∧
    ∀ t : List NativeCall,
      (∀ h, h ∈ liveBuffers (e.destroyBuffer b ((e.createBuffer o size usage memProps s).2 ++ t))
        ↔ (h ∈ liveBuffers ((e.createBuffer o size usage memProps s).2 ++ t) ∧ h ≠ b._buffer)) ∧
      (∀ h, h ∈ liveMemory (e.destroyBuffer b ((e.createBuffer o size usage memProps s).2 ++ t))
        ↔ (h ∈ liveMemory ((e.createBuffer o size usage memProps s).2 ++ t) ∧ h ≠ b._memory)) := by
  have hvalid : (e.createBuffer o size usage memProps s).1.isValid = true := by
    rw [hcreate]; rfl
  by_cases h1 : o.createBufferResult = VK_SUCCESS
  · cases hidx : findMemoryTypeIndex e.m_physicalDevice o.requirements.memoryTypeBits memProps with
    | error err =>
      rw [createBuffer_of_resolve_failed e o size usage memProps s h1 _ hidx] at hvalid
      exact Bool.noConfusion hvalid
    | value idx =>
      by_cases h2 : o.allocateResult = VK_SUCCESS
      · by_cases h3 : o.bindResult = VK_SUCCESS
        · rw [createBuffer_of_success e o size usage memProps s h1 idx hidx h2 h3] at hcreate ⊢
          injection hcreate with hb
          subst hb
          refine ⟨?_, ?_, ?_, ?_, ?_⟩
          · rw [liveBuffers_destroyBuffer, liveBuffers_append]
            simp only [List.foldl, liveBuffersStep, if_true]
            rw [List.filter_cons]
            simp only [bne_self_eq_false, Bool.false_eq_true, if_false]
            exact filter_ne_of_not_mem _ _ hfreshBuffer
          · rw [liveMemory_destroyBuffer, liveMemory_append]
            simp only [List.foldl, liveMemoryStep, if_true]
            rw [List.filter_cons]
            simp only [bne_self_eq_false, Bool.false_eq_true, if_false]
            exact filter_ne_of_not_mem _ _ hfreshMemory
          · rw [liveBuffers_append]
            simp [liveBuffersStep]
          · rw [liveMemory_append]
            simp [liveMemoryStep]
          · intro t
            refine ⟨fun h => ?_, fun h => ?_⟩
            · rw [liveBuffers_destroyBuffer, mem_filter_ne]
            · rw [liveMemory_destroyBuffer, mem_filter_ne]
        · rw [createBuffer_of_bind_failed e o size usage memProps s h1 idx hidx h2 h3] at hvalid
          exact Bool.noConfusion hvalid
      · rw [createBuffer_of_allocate_failed e o size usage memProps s h1 idx hidx h2] at hvalid
        exact Bool.noConfusion hvalid
  · rw [createBuffer_of_create_failed e o size usage memProps s h1] at hvalid
    exact Bool.noConfusion hvalid

/-- C8, the scenario of `step2.cpp` on the example engine: buffer A (handles 10, 11) is
created, then buffer B (handles 20, 21); destroying A right after its creation empties
the live sets again, and destroying A after B was created leaves exactly B. -/
theorem createBuffer_destroyBuffer_roundtrip_witness :
    (exampleEngine.createBuffer ⟨VK_SUCCESS, 10, ⟨4096, 16, 0b011⟩, VK_SUCCESS, 11, VK_SUCCESS⟩
      4096 3 6 []).1 = Result.value ⟨10, 11, 4096⟩ ∧
    (10 ∉ liveBuffers []) ∧ (11 ∉ liveMemory []) ∧
    liveBuffers (exampleEngine.destroyBuffer ⟨10, 11, 4096⟩
      (exampleEngine.createBuffer
        ⟨VK_SUCCESS, 10, ⟨4096, 16, 0b011⟩, VK_SUCCESS, 11, VK_SUCCESS⟩ 4096 3 6 []).2)
      = liveBuffers [] ∧
    liveMemory (exampleEngine.destroyBuffer ⟨10, 11, 4096⟩
      (exampleEngine.createBuffer
        ⟨VK_SUCCESS, 10, ⟨4096, 16, 0b011⟩, VK_SUCCESS, 11, VK_SUCCESS⟩ 4096 3 6 []).2)
      = liveMemory [] ∧
    liveBuffers (exampleEngine.destroyBuffer ⟨10, 11, 4096⟩
      (exampleEngine.createBuffer
        ⟨VK_SUCCESS, 20, ⟨4096, 16, 0b011⟩, VK_SUCCESS, 21, VK_SUCCESS⟩ 4096 2 6
        (exampleEngine.createBuffer
          ⟨VK_SUCCESS, 10, ⟨4096, 16, 0b011⟩, VK_SUCCESS, 11, VK_SUCCESS⟩ 4096 3 6 []).2).2)
      = [20] ∧
    liveMemory (exampleEngine.destroyBuffer ⟨10, 11, 4096⟩
      (exampleEngine.createBuffer
        ⟨VK_SUCCESS, 20, ⟨4096, 16, 0b011⟩, VK_SUCCESS, 21, VK_SUCCESS⟩ 4096 2 6
        (exampleEngine.createBuffer
          ⟨VK_SUCCESS, 10, ⟨4096, 16, 0b011⟩, VK_SUCCESS, 11, VK_SUCCESS⟩ 4096 3 6 []).2).2)
      = [21] :=
  ⟨by decide, by decide, by decide,
    (createBuffer_destroyBuffer_roundtrip exampleEngine
      ⟨VK_SUCCESS, 10, ⟨4096, 16, 0b011⟩, VK_SUCCESS, 11, VK_SUCCESS⟩ 4096 3 6 []
      ⟨10, 11, 4096⟩ (by decide) (by decide) (by decide)).1,
    (createBuffer_destroyBuffer_roundtrip exampleEngine
      ⟨VK_SUCCESS, 10, ⟨4096, 16, 0b011⟩, VK_SUCCESS, 11, VK_SUCCESS⟩ 4096 3 6 []
      ⟨10, 11, 4096⟩ (by decide) (by decide) (by decide)).2.1,
    by decide, by decide⟩

/-! ## Device and queue-family selection -/

theorem selectPhysicalDeviceLoop_none :
    ∀ (gpus : List VkPhysicalDevice) (cur sel : Nat),
      (∀ g ∈ gpus, g.vendorID ≠ 0x10DE) → selectPhysicalDeviceLoop gpus cur sel = sel := by
  intro gpus
  induction gpus with
  | nil => intro cur sel _; rfl
  | cons g rest ih =>
    intro cur sel h
    unfold selectPhysicalDeviceLoop
    have hg : ¬ (0x10DE = g.vendorID) := fun hv => h g (List.mem_cons_self _ _) hv.symm
    rw [if_neg hg]
    exact ih (cur + 1) sel (fun g2 hg2 => h g2 (List.mem_cons_of_mem _ hg2))

theorem selectPhysicalDeviceLoop_some :
    ∀ (gpus : List VkPhysicalDevice) (cur sel : Nat),
      (∃ g ∈ gpus, g.vendorID = 0x10DE) →
      cur ≤ selectPhysicalDeviceLoop gpus cur sel ∧
      (∃ g, gpus[selectPhysicalDeviceLoop gpus cur sel - cur]? = some g ∧ g.vendorID = 0x10DE) ∧
      ∀ k g, gpus[k]? = some g → g.vendorID = 0x10DE →
        cur + k ≤ selectPhysicalDeviceLoop gpus cur sel := by
  intro gpus
  induction gpus with
  | nil => intro cur sel h; obtain ⟨g, hg, _⟩ := h; cases hg
  | cons g rest ih =>
    intro cur sel h
    unfold selectPhysicalDeviceLoop
    by_cases hrest : ∃ g2 ∈ rest, g2.vendorID = 0x10DE
    · obtain ⟨h1, ⟨g3, h2, h3⟩, h4⟩ :=
        ih (cur + 1) (if 0x10DE = g.vendorID then cur else sel) hrest
      refine ⟨by omega, ⟨g3, ?_, h3⟩, ?_⟩
      · have hidx : selectPhysicalDeviceLoop rest (cur + 1)
            (if 0x10DE = g.vendorID then cur else sel) - cur =
            (selectPhysicalDeviceLoop rest (cur + 1)
              (if 0x10DE = g.vendorID then cur else sel) - (cur + 1)) + 1 := by omega
        rw [hidx, List.getElem?_cons_succ]
        exact h2
      · intro k g4 hk hv
        cases k with
        | zero => omega
        | succ k =>
          rw [List.getElem?_cons_succ] at hk
          have := h4 k g4 hk hv
          omega
    · have hnone : ∀ g2 ∈ rest, g2.vendorID ≠ 0x10DE :=
        fun g2 hg2 hv => hrest ⟨g2, hg2, hv⟩
      have hg : g.vendorID = 0x10DE := by
        obtain ⟨g5, hg5, hv5⟩ := h
        rcases List.mem_cons.1 hg5 with heq | hmem
        · rw [← heq]; exact hv5
        · exact absurd hv5 (hnone g5 hmem)
      rw [selectPhysicalDeviceLoop_none rest (cur + 1) _ hnone, if_pos hg.symm]
      refine ⟨Nat.le_refl _, ⟨g, by simp, hg⟩, ?_⟩
      intro k g4 hk hv
      cases k with
      | zero => omega
      | succ k =>
        rw [List.getElem?_cons_succ] at hk
        exact absurd hv (hnone g4 (List.getElem?_mem hk))

/-- The physical device the constructor stores once the instance exists and the
enumeration has produced at least one device. -/
theorem construct_physicalDevice (uninit : Engine) (o : ConstructorOutcomes)
    (s : List NativeCall) (h1 : o.createInstanceResult = VK_SUCCESS)
    (h2 : o.enumerateResult = VK_SUCCESS) (h3 : o.gpus ≠ []) :
    (Engine.construct uninit o s).1.m_physicalDevice =
      o.gpus.getD (selectPhysicalDeviceIndex o.gpus) {} := by
  have hlen : o.gpus.length ≠ 0 := fun h => h3 (List.length_eq_zero.1 h)
  unfold Engine.construct
  simp only [h1, h2, bne_self_eq_false, Bool.false_eq_true, if_false, Bool.false_or,
    beq_iff_eq, hlen]
  split
  · rfl
  · split
    · rfl
    · rfl

/-- C9 (counterexample): with the devices Intel (handle 1), NVIDIA (handle 2), NVIDIA
(handle 3) enumerated in this order, the first device whose vendor ID is `0x10DE` is
the one with handle 2, and the constructor selects the one with handle 3. -/
theorem construct_does_not_select_first_preferred :
    List.find? (fun g => g.vendorID == 0x10DE)
      [(⟨1, 0x8086, [⟨0x2, 1⟩], {}⟩ : VkPhysicalDevice), ⟨2, 0x10DE, [⟨0x2, 1⟩], {}⟩,
        ⟨3, 0x10DE, [⟨0x2, 1⟩], {}⟩] = some ⟨2, 0x10DE, [⟨0x2, 1⟩], {}⟩ ∧
    (Engine.construct exampleEngine
      ⟨VK_SUCCESS, 5, VK_SUCCESS,
        [⟨1, 0x8086, [⟨0x2, 1⟩], {}⟩, ⟨2, 0x10DE, [⟨0x2, 1⟩], {}⟩, ⟨3, 0x10DE, [⟨0x2, 1⟩], {}⟩],
        VK_SUCCESS, 6, 7⟩ []).1.m_physicalDevice = ⟨3, 0x10DE, [⟨0x2, 1⟩], {}⟩ ∧
    (Engine.construct exampleEngine
      ⟨VK_SUCCESS, 5, VK_SUCCESS,
        [⟨1, 0x8086, [⟨0x2, 1⟩], {}⟩, ⟨2, 0x10DE, [⟨0x2, 1⟩], {}⟩, ⟨3, 0x10DE, [⟨0x2, 1⟩], {}⟩],
        VK_SUCCESS, 6, 7⟩ []).1.m_success = true := by
  refine ⟨by decide, by decide, by decide⟩

/-- C9 (amended): once the instance exists and the enumeration has produced a
non-empty device list, the constructor selects the last device of the list (highest
index) whose vendor ID equals `0x10DE`, and the device at index 0 when no device has
that vendor ID. -/
theorem construct_selects_last_preferred (uninit : Engine) (o : ConstructorOutcomes)
    (s : List NativeCall) (h1 : o.createInstanceResult = VK_SUCCESS)
    (h2 : o.enumerateResult = VK_SUCCESS) (h3 : o.gpus ≠ []) :
    ∃ idx, o.gpus[idx]? = some (Engine.construct uninit o s).1.m_physicalDevice ∧
      ((∀ g ∈ o.gpus, g.vendorID ≠ 0x10DE) → idx = 0) ∧
      ((∃ g ∈ o.gpus, g.vendorID = 0x10DE) →
        (Engine.construct uninit o s).1.m_physicalDevice.vendorID = 0x10DE ∧
        ∀ k g, o.gpus[k]? = some g → g.vendorID = 0x10DE → k ≤ idx) := by
  rw [construct_physicalDevice uninit o s h1 h2 h3]
  refine ⟨selectPhysicalDeviceIndex o.gpus, ?_, ?_, ?_⟩
  · by_cases hsome : ∃ g ∈ o.gpus, g.vendorID = 0x10DE
    · obtain ⟨_, ⟨g, hg, _⟩, _⟩ := selectPhysicalDeviceLoop_some o.gpus 0 0 hsome
      have hg2 : o.gpus[selectPhysicalDeviceIndex o.gpus]? = some g := hg
      rw [List.getD_eq_getElem?_getD, hg2]
      rfl
    · have hnone : ∀ g ∈ o.gpus, g.vendorID ≠ 0x10DE := fun g hg hv => hsome ⟨g, hg, hv⟩
      have h0 : selectPhysicalDeviceIndex o.gpus = 0 :=
        selectPhysicalDeviceLoop_none o.gpus 0 0 hnone
      rw [h0]
      cases hgp : o.gpus with
      | nil => exact absurd hgp h3
      | cons g rest => simp
  · intro hnone
    exact selectPhysicalDeviceLoop_none o.gpus 0 0 hnone
  · intro hsome
    obtain ⟨_, ⟨g, hg, hv⟩, hmax⟩ := selectPhysicalDeviceLoop_some o.gpus 0 0 hsome
    have hg2 : o.gpus[selectPhysicalDeviceIndex o.gpus]? = some g := hg
    refine ⟨?_, ?_⟩
    · rw [List.getD_eq_getElem?_getD, hg2]
      exact hv
    · intro k g2 hk hv2
      have := hmax k g2 hk hv2
      unfold selectPhysicalDeviceIndex
      omega

/-- C9 (amended), on the three devices Intel, NVIDIA, NVIDIA: the selected device is
an entry of the list, has vendor `0x10DE`, and no entry with that vendor comes later. -/
theorem construct_selects_last_preferred_witness :
    (VK_SUCCESS = VK_SUCCESS) ∧
    ([(⟨1, 0x8086, [⟨0x2, 1⟩], {}⟩ : VkPhysicalDevice), ⟨2, 0x10DE, [⟨0x2, 1⟩], {}⟩,
        ⟨3, 0x10DE, [⟨0x2, 1⟩], {}⟩] ≠ []) ∧
    ∃ idx,
      [(⟨1, 0x8086, [⟨0x2, 1⟩], {}⟩ : VkPhysicalDevice), ⟨2, 0x10DE, [⟨0x2, 1⟩], {}⟩,
        ⟨3, 0x10DE, [⟨0x2, 1⟩], {}⟩][idx]? =
        some (Engine.construct exampleEngine
          ⟨VK_SUCCESS, 5, VK_SUCCESS,
            [⟨1, 0x8086, [⟨0x2, 1⟩], {}⟩, ⟨2, 0x10DE, [⟨0x2, 1⟩], {}⟩,
              ⟨3, 0x10DE, [⟨0x2, 1⟩], {}⟩],
            VK_SUCCESS, 6, 7⟩ []).1.m_physicalDevice ∧
      ∀ (k : Nat) (g : VkPhysicalDevice),
        [(⟨1, 0x8086, [⟨0x2, 1⟩], {}⟩ : VkPhysicalDevice), ⟨2, 0x10DE, [⟨0x2, 1⟩], {}⟩,
          ⟨3, 0x10DE, [⟨0x2, 1⟩], {}⟩][k]? = some g → g.vendorID = 0x10DE → k ≤ idx := by
  refine ⟨rfl, by decide, ?_⟩
  obtain ⟨idx, hidx, _, hlast⟩ := construct_selects_last_preferred exampleEngine
    ⟨VK_SUCCESS, 5, VK_SUCCESS,
      [⟨1, 0x8086, [⟨0x2, 1⟩], {}⟩, ⟨2, 0x10DE, [⟨0x2, 1⟩], {}⟩, ⟨3, 0x10DE, [⟨0x2, 1⟩], {}⟩],
      VK_SUCCESS, 6, 7⟩ [] rfl rfl (by decide)
  exact ⟨idx, hidx, (hlast ⟨⟨2, 0x10DE, [⟨0x2, 1⟩], {}⟩, by decide, rfl⟩).2⟩

theorem queueFamilyTest_iff (q : VkQueueFamilyProperties) :
    (decide (0 < q.queueCount) && (q.queueFlags &&& VK_QUEUE_COMPUTE_BIT != 0)) = true ↔
      UsableComputeFamily q := by
  have h2 : VK_QUEUE_COMPUTE_BIT = shl32 1 1 := by decide
  unfold UsableComputeFamily
  rw [h2, and_shl32_ne_zero q.queueFlags 1 (by decide)]
  simp

theorem toInt32_of_lt (k : Nat) (h : k < 2 ^ 31) : toInt32 k = (k : Int) := by
  unfold toInt32
  have hk : k % 2 ^ 32 = k := Nat.mod_eq_of_lt (by omega)
  rw [hk, if_pos h]

theorem findGraphicsQueueFamilyLoop_cases :
    ∀ (qs : List VkQueueFamilyProperties) (i : Nat),
      ((∀ q ∈ qs, ¬ UsableComputeFamily q) ∧ findGraphicsQueueFamilyLoop qs i = -1) ∨
      (∃ k q, qs[k]? = some q ∧ UsableComputeFamily q ∧
        (∀ j r, j < k → qs[j]? = some r → ¬ UsableComputeFamily r) ∧
        findGraphicsQueueFamilyLoop qs i = toInt32 (i + k)) := by
  intro qs
  induction qs with
  | nil => intro i; left; exact ⟨fun q hq => (by cases hq), rfl⟩
  | cons q rest ih =>
    intro i
    unfold findGraphicsQueueFamilyLoop
    by_cases hq : UsableComputeFamily q
    · right
      rw [if_pos ((queueFamilyTest_iff q).2 hq)]
      exact ⟨0, q, by simp, hq, fun j r hj _ => absurd hj (Nat.not_lt_zero j), rfl⟩
    · have hq2 : ¬ ((decide (0 < q.queueCount) &&
          (q.queueFlags &&& VK_QUEUE_COMPUTE_BIT != 0)) = true) :=
        fun h => hq ((queueFamilyTest_iff q).1 h)
      rw [if_neg hq2]
      rcases ih (i + 1) with ⟨hnone, hres⟩ | ⟨k, r, hk, hr, hmin, hres⟩
      · left
        refine ⟨?_, hres⟩
        intro q2 hq2m
        rcases List.mem_cons.1 hq2m with heq | hmem
        · rw [heq]; exact hq
        · exact hnone q2 hmem
      · right
        refine ⟨k + 1, r, by rw [List.getElem?_cons_succ]; exact hk, hr, ?_, ?_⟩
        · intro j r2 hj hj2
          cases j with
          | zero =>
            simp at hj2
            rw [← hj2]; exact hq
          | succ j =>
            rw [List.getElem?_cons_succ] at hj2
            exact hmin j r2 (by omega) hj2
        · rw [hres]
          congr 1
          omega

/-- C10 (counterexample): a family whose flags include the compute bit but whose
`queueCount` is 0 is passed over. With that family alone the result is -1; with a
second compute family that has a queue the result is 1, not the lowest index 0. -/
theorem findGraphicsQueueFamily_skips_family_without_queue :
    (∃ q ∈ ([⟨0x2, 0⟩] : List VkQueueFamilyProperties), q.queueFlags.testBit 1 = true) ∧
    findGraphicsQueueFamily ⟨1, 0x10DE, [⟨0x2, 0⟩], {}⟩ = -1 ∧
    findGraphicsQueueFamily ⟨1, 0x10DE, [⟨0x2, 0⟩, ⟨0x2, 1⟩], {}⟩ = 1 := by
  refine ⟨⟨(⟨0x2, 0⟩ : VkQueueFamilyProperties), List.mem_singleton.2 rfl, ?_⟩, ?_, ?_⟩ <;>
    decide

/-- C10 (amended): `findGraphicsQueueFamily` returns the lowest index of a family that
has at least one queue (`queueCount > 0`) and whose flags include the compute bit,
and returns -1 exactly when no family is of that kind. -/
theorem findGraphicsQueueFamily_lowest_usable (phys : VkPhysicalDevice)
    (hlen : phys.queueFamilies.length ≤ 2 ^ 31) :
    (∀ (k : Nat) (q : VkQueueFamilyProperties), phys.queueFamilies[k]? = some q →
      UsableComputeFamily q →
      (∀ (j : Nat) (r : VkQueueFamilyProperties), j < k → phys.queueFamilies[j]? = some r → ¬ UsableComputeFamily r) →
      findGraphicsQueueFamily phys = (k : Int)) ∧
    (findGraphicsQueueFamily phys = -1 ↔
      ∀ q ∈ phys.queueFamilies, ¬ UsableComputeFamily q) := by
  unfold findGraphicsQueueFamily
  rcases findGraphicsQueueFamilyLoop_cases phys.queueFamilies 0 with
    ⟨hnone, hres⟩ | ⟨k, r, hk, hr, hmin, hres⟩
  · refine ⟨?_, ⟨fun _ => hnone, fun _ => hres⟩⟩
    intro k q hk hq _
    exact absurd hq (hnone q (List.getElem?_mem hk))
  · have hklt : k < phys.queueFamilies.length := by
      by_contra hge
      rw [List.getElem?_eq_none (by omega)] at hk
      exact Option.noConfusion hk
    have hval : findGraphicsQueueFamilyLoop phys.queueFamilies 0 = (k : Int) := by
      rw [hres, Nat.zero_add]
      exact toInt32_of_lt k (by omega)
    refine ⟨?_, ⟨fun h => ?_, fun h => ?_⟩⟩
    · intro k2 q2 hk2 hq2 hmin2
      have h1 : ¬ k2 < k := fun hlt => hmin k2 q2 hlt hk2 hq2
      have h2 : ¬ k < k2 := fun hlt => hmin2 k r hlt hk hr
      have : k2 = k := by omega
      rw [this]
      exact hval
    · rw [hval] at h
      omega
    · exact absurd hr (h r (List.getElem?_mem hk))

/-- C10 (amended), on a device whose family 0 is graphics only, family 1 has the
compute bit and no queue, and family 2 has the compute bit and one queue: the
result is 2. -/
theorem findGraphicsQueueFamily_lowest_usable_witness :
    (([⟨0x1, 4⟩, ⟨0x2, 0⟩, ⟨0x3, 1⟩] : List VkQueueFamilyProperties).length ≤ 2 ^ 31) ∧
    findGraphicsQueueFamily ⟨1, 0x10DE, [⟨0x1, 4⟩, ⟨0x2, 0⟩, ⟨0x3, 1⟩], {}⟩ = ((2 : Nat) : Int) :=
  ⟨by decide,
    (findGraphicsQueueFamily_lowest_usable ⟨1, 0x10DE, [⟨0x1, 4⟩, ⟨0x2, 0⟩, ⟨0x3, 1⟩], {}⟩
      (by decide)).1 2 ⟨0x3, 1⟩ rfl (by decide) (by
        intro j r hj hjr
        have hj2 : j = 0 ∨ j = 1 := by omega
        rcases hj2 with h0 | h1
        · subst h0
          injection hjr with hjr
          subst hjr
          decide
        · subst h1
          injection hjr with hjr
          subst hjr
          decide)⟩

/-! ## Construction: the five ways the constructor ends -/

theorem construct_of_instance_failed (uninit : Engine) (o : ConstructorOutcomes)
    (s : List NativeCall) (h1 : o.createInstanceResult ≠ VK_SUCCESS) :
    Engine.construct uninit o s =
      ({ uninit with
          m_success := false, m_result := o.createInstanceResult,
          m_instance := VK_NULL_HANDLE },
        s ++ [NativeCall.vkCreateInstance o.createInstanceResult o.instanceHandle]) := by
  simp [Engine.construct, h1]

theorem construct_of_enumerate_failed (uninit : Engine) (o : ConstructorOutcomes)
    (s : List NativeCall) (h1 : o.createInstanceResult = VK_SUCCESS)
    (h2 : o.enumerateResult ≠ VK_SUCCESS ∨ o.gpus = []) :
    Engine.construct uninit o s =
      ({ uninit with
          m_success := false, m_result := o.enumerateResult,
          m_instance := o.instanceHandle },
        s ++ [NativeCall.vkCreateInstance VK_SUCCESS o.instanceHandle,
          NativeCall.vkEnumeratePhysicalDevices o.instanceHandle false o.enumerateResult
            o.gpus.length]) := by
  rcases h2 with h2 | h2
  · simp [Engine.construct, h1, h2]
  · simp [Engine.construct, h1, h2]

theorem construct_of_no_queue (uninit : Engine) (o : ConstructorOutcomes)
    (s : List NativeCall) (h1 : o.createInstanceResult = VK_SUCCESS)
    (h2 : o.enumerateResult = VK_SUCCESS) (h3 : o.gpus ≠ [])
    (h4 : findGraphicsQueueFamily (o.gpus.getD (selectPhysicalDeviceIndex o.gpus) {}) < 0) :
    Engine.construct uninit o s =
      ({ uninit with
          m_success := false, m_result := VK_ERROR_UNKNOWN,
          m_instance := o.instanceHandle,
          m_physicalDevice := o.gpus.getD (selectPhysicalDeviceIndex o.gpus) {} },
        s ++ [NativeCall.vkCreateInstance VK_SUCCESS o.instanceHandle,
          NativeCall.vkEnumeratePhysicalDevices o.instanceHandle false VK_SUCCESS
            o.gpus.length,
          NativeCall.vkEnumeratePhysicalDevices o.instanceHandle true VK_SUCCESS
            o.gpus.length] ++
          o.gpus.map (fun gpu => NativeCall.vkGetPhysicalDeviceProperties gpu.handle) ++
          [NativeCall.vkGetPhysicalDeviceQueueFamilyProperties
              (o.gpus.getD (selectPhysicalDeviceIndex o.gpus) {}).handle false,
            NativeCall.vkGetPhysicalDeviceQueueFamilyProperties
              (o.gpus.getD (selectPhysicalDeviceIndex o.gpus) {}).handle true]) := by
  have hlen : o.gpus.length ≠ 0 := fun h => h3 (List.length_eq_zero.1 h)
  simp only [List.getD_eq_getElem?_getD] at h4
  simp [Engine.construct, h1, h2, hlen, h4]

theorem construct_of_device_failed (uninit : Engine) (o : ConstructorOutcomes)
    (s : List NativeCall) (h1 : o.createInstanceResult = VK_SUCCESS)
    (h2 : o.enumerateResult = VK_SUCCESS) (h3 : o.gpus ≠ [])
    (h4 : ¬ findGraphicsQueueFamily (o.gpus.getD (selectPhysicalDeviceIndex o.gpus) {}) < 0)
    (h5 : o.createDeviceResult ≠ VK_SUCCESS) :
    Engine.construct uninit o s =
      ({ uninit with
          m_success := false, m_result := o.createDeviceResult,
          m_instance := o.instanceHandle,
          m_physicalDevice := o.gpus.getD (selectPhysicalDeviceIndex o.gpus) {},
          m_device := VK_NULL_HANDLE },
        s ++ [NativeCall.vkCreateInstance VK_SUCCESS o.instanceHandle,
          NativeCall.vkEnumeratePhysicalDevices o.instanceHandle false VK_SUCCESS
            o.gpus.length,
          NativeCall.vkEnumeratePhysicalDevices o.instanceHandle true VK_SUCCESS
            o.gpus.length] ++
          o.gpus.map (fun gpu => NativeCall.vkGetPhysicalDeviceProperties gpu.handle) ++
          [NativeCall.vkGetPhysicalDeviceQueueFamilyProperties
              (o.gpus.getD (selectPhysicalDeviceIndex o.gpus) {}).handle false,
            NativeCall.vkGetPhysicalDeviceQueueFamilyProperties
              (o.gpus.getD (selectPhysicalDeviceIndex o.gpus) {}).handle true,
            NativeCall.vkCreateDevice (o.gpus.getD (selectPhysicalDeviceIndex o.gpus) {}).handle
              (findGraphicsQueueFamily
                (o.gpus.getD (selectPhysicalDeviceIndex o.gpus) {})).toNat 1
              o.createDeviceResult o.deviceHandle]) := by
  have hlen : o.gpus.length ≠ 0 := fun h => h3 (List.length_eq_zero.1 h)
  simp only [List.getD_eq_getElem?_getD, not_lt] at h4
  have h4b := not_lt.2 h4
  simp [Engine.construct, h1, h2, hlen, h4, h4b, h5]

theorem construct_of_success (uninit : Engine) (o : ConstructorOutcomes)
    (s : List NativeCall) (h1 : o.createInstanceResult = VK_SUCCESS)
    (h2 : o.enumerateResult = VK_SUCCESS) (h3 : o.gpus ≠ [])
    (h4 : ¬ findGraphicsQueueFamily (o.gpus.getD (selectPhysicalDeviceIndex o.gpus) {}) < 0)
    (h5 : o.createDeviceResult = VK_SUCCESS) :
    Engine.construct uninit o s =
      ({ uninit with
          m_success := true, m_result := VK_SUCCESS,
          m_instance := o.instanceHandle,
          m_physicalDevice := o.gpus.getD (selectPhysicalDeviceIndex o.gpus) {},
          m_device := o.deviceHandle, m_queue := o.queueHandle },
        s ++ [NativeCall.vkCreateInstance VK_SUCCESS o.instanceHandle,
          NativeCall.vkEnumeratePhysicalDevices o.instanceHandle false VK_SUCCESS
            o.gpus.length,
          NativeCall.vkEnumeratePhysicalDevices o.instanceHandle true VK_SUCCESS
            o.gpus.length] ++
          o.gpus.map (fun gpu => NativeCall.vkGetPhysicalDeviceProperties gpu.handle) ++
          [NativeCall.vkGetPhysicalDeviceQueueFamilyProperties
              (o.gpus.getD (selectPhysicalDeviceIndex o.gpus) {}).handle false,
            NativeCall.vkGetPhysicalDeviceQueueFamilyProperties
              (o.gpus.getD (selectPhysicalDeviceIndex o.gpus) {}).handle true,
            NativeCall.vkCreateDevice (o.gpus.getD (selectPhysicalDeviceIndex o.gpus) {}).handle
              (findGraphicsQueueFamily
                (o.gpus.getD (selectPhysicalDeviceIndex o.gpus) {})).toNat 1
              VK_SUCCESS o.deviceHandle,
            NativeCall.vkGetDeviceQueue o.deviceHandle
              (findGraphicsQueueFamily
                (o.gpus.getD (selectPhysicalDeviceIndex o.gpus) {})).toNat 0]) := by
  have hlen : o.gpus.length ≠ 0 := fun h => h3 (List.length_eq_zero.1 h)
  simp only [List.getD_eq_getElem?_getD, not_lt] at h4
  have h4b := not_lt.2 h4
  simp [Engine.construct, h1, h2, hlen, h4, h4b, h5]

theorem findGraphicsQueueFamily_of_none_usable (phys : VkPhysicalDevice)
    (h : ∀ q ∈ phys.queueFamilies, ¬ UsableComputeFamily q) :
    findGraphicsQueueFamily phys = -1 := by
  unfold findGraphicsQueueFamily
  rcases findGraphicsQueueFamilyLoop_cases phys.queueFamilies 0 with
    ⟨_, hres⟩ | ⟨k, r, hk, hr, _, _⟩
  · exact hres
  · exact absurd hr (h r (List.getElem?_mem hk))

/-! ## Construction and destruction of the engine -/

/-- C11 (counterexample): the instance is created and the enumeration succeeds with an
empty device list; the constructor fails and `getEngineState` reports `ready = false`
together with the success code `VK_SUCCESS`. With one device that has a graphics
family only, the reported code is the generic `VK_ERROR_UNKNOWN`. -/
theorem construct_empty_device_list_reports_success_code :
    (Engine.construct exampleEngine ⟨VK_SUCCESS, 5, VK_SUCCESS, [], VK_SUCCESS, 6, 7⟩
      []).1.getEngineState = ⟨false, VK_SUCCESS⟩ ∧
    (Engine.construct exampleEngine
      ⟨VK_SUCCESS, 5, VK_SUCCESS, [⟨1, 0x10DE, [⟨VK_QUEUE_GRAPHICS_BIT, 1⟩], {}⟩],
        VK_SUCCESS, 6, 7⟩ []).1.getEngineState = ⟨false, VK_ERROR_UNKNOWN⟩ := by
  constructor <;> decide

/-- C11 (amended): with an empty device list the constructor fails and `ready` is
false; when the selected device has no queue family with a queue and the compute bit,
the constructor fails, `ready` is false and the reported code is `VK_ERROR_UNKNOWN`,
which differs from `VK_SUCCESS`. -/
theorem construct_fails_without_device_or_queue (uninit : Engine) (o : ConstructorOutcomes)
    (s : List NativeCall) :
    (o.gpus = [] → (Engine.construct uninit o s).1.getEngineState._ready = false) ∧
    (o.createInstanceResult = VK_SUCCESS → o.enumerateResult = VK_SUCCESS → o.gpus ≠ [] →
      (∀ q ∈ (Engine.construct uninit o s).1.m_physicalDevice.queueFamilies,
        ¬ UsableComputeFamily q) →
      (Engine.construct uninit o s).1.getEngineState = ⟨false, VK_ERROR_UNKNOWN⟩ ∧
      VK_ERROR_UNKNOWN ≠ VK_SUCCESS) := by
  refine ⟨fun hempty => ?_, fun h1 h2 h3 hnone => ?_⟩
  · by_cases h1 : o.createInstanceResult = VK_SUCCESS
    · rw [construct_of_enumerate_failed uninit o s h1 (Or.inr hempty)]
      rfl
    · rw [construct_of_instance_failed uninit o s h1]
      rfl
  · rw [construct_physicalDevice uninit o s h1 h2 h3] at hnone
    have hq := findGraphicsQueueFamily_of_none_usable _ hnone
    rw [construct_of_no_queue uninit o s h1 h2 h3 (by rw [hq]; decide)]
    exact ⟨rfl, by decide⟩

/-- C12: `ready` is true exactly when instance creation succeeded, the enumeration
succeeded with at least one device, `findGraphicsQueueFamily` found a family on the
selected device and device creation succeeded; the constructor stops at the first of
these steps that fails, its calls being the ones up to that step. -/
theorem construct_ready_iff (uninit : Engine) (o : ConstructorOutcomes)
    (s : List NativeCall) :
    ((Engine.construct uninit o s).1.getEngineState._ready = true ↔
      (o.createInstanceResult = VK_SUCCESS ∧ o.enumerateResult = VK_SUCCESS ∧
        o.gpus ≠ [] ∧
        0 ≤ findGraphicsQueueFamily (o.gpus.getD (selectPhysicalDeviceIndex o.gpus) {}) ∧
        o.createDeviceResult = VK_SUCCESS)) ∧
    (o.createInstanceResult ≠ VK_SUCCESS →
      (Engine.construct uninit o s).2 =
        s ++ [NativeCall.vkCreateInstance o.createInstanceResult o.instanceHandle]) ∧
    (o.createInstanceResult = VK_SUCCESS →
      (o.enumerateResult ≠ VK_SUCCESS ∨ o.gpus = []) →
      (Engine.construct uninit o s).2 =
        s ++ [NativeCall.vkCreateInstance VK_SUCCESS o.instanceHandle,
          NativeCall.vkEnumeratePhysicalDevices o.instanceHandle false o.enumerateResult
            o.gpus.length]) ∧
    (o.createInstanceResult = VK_SUCCESS → o.enumerateResult = VK_SUCCESS → o.gpus ≠ [] →
      findGraphicsQueueFamily (o.gpus.getD (selectPhysicalDeviceIndex o.gpus) {}) < 0 →
      (Engine.construct uninit o s).2 =
        s ++ [NativeCall.vkCreateInstance VK_SUCCESS o.instanceHandle,
          NativeCall.vkEnumeratePhysicalDevices o.instanceHandle false VK_SUCCESS
            o.gpus.length,
          NativeCall.vkEnumeratePhysicalDevices o.instanceHandle true VK_SUCCESS
            o.gpus.length] ++
          o.gpus.map (fun gpu => NativeCall.vkGetPhysicalDeviceProperties gpu.handle) ++
          [NativeCall.vkGetPhysicalDeviceQueueFamilyProperties
              (o.gpus.getD (selectPhysicalDeviceIndex o.gpus) {}).handle false,
            NativeCall.vkGetPhysicalDeviceQueueFamilyProperties
              (o.gpus.getD (selectPhysicalDeviceIndex o.gpus) {}).handle true]) ∧
    (o.createInstanceResult = VK_SUCCESS → o.enumerateResult = VK_SUCCESS → o.gpus ≠ [] →
      0 ≤ findGraphicsQueueFamily (o.gpus.getD (selectPhysicalDeviceIndex o.gpus) {}) →
      o.createDeviceResult ≠ VK_SUCCESS →
      (Engine.construct uninit o s).2 =
        s ++ [NativeCall.vkCreateInstance VK_SUCCESS o.instanceHandle,
          NativeCall.vkEnumeratePhysicalDevices o.instanceHandle false VK_SUCCESS
            o.gpus.length,
          NativeCall.vkEnumeratePhysicalDevices o.instanceHandle true VK_SUCCESS
            o.gpus.length] ++
          o.gpus.map (fun gpu => NativeCall.vkGetPhysicalDeviceProperties gpu.handle) ++
          [NativeCall.vkGetPhysicalDeviceQueueFamilyProperties
              (o.gpus.getD (selectPhysicalDeviceIndex o.gpus) {}).handle false,
            NativeCall.vkGetPhysicalDeviceQueueFamilyProperties
              (o.gpus.getD (selectPhysicalDeviceIndex o.gpus) {}).handle true,
            NativeCall.vkCreateDevice (o.gpus.getD (selectPhysicalDeviceIndex o.gpus) {}).handle
              (findGraphicsQueueFamily
                (o.gpus.getD (selectPhysicalDeviceIndex o.gpus) {})).toNat 1
              o.createDeviceResult o.deviceHandle]) := by
  by_cases h1 : o.createInstanceResult = VK_SUCCESS
  · by_cases h2 : o.enumerateResult = VK_SUCCESS
    · by_cases h3 : o.gpus = []
      · rw [construct_of_enumerate_failed uninit o s h1 (Or.inr h3)]
        simp [h1, h2, h3, Engine.getEngineState]
      · by_cases h4 :
            findGraphicsQueueFamily (o.gpus.getD (selectPhysicalDeviceIndex o.gpus) {}) < 0
        · rw [construct_of_no_queue uninit o s h1 h2 h3 h4]
          have h4b := not_le.2 h4
          refine ⟨⟨fun h => Bool.noConfusion h, fun h => absurd h.2.2.2.1 h4b⟩,
            fun h => absurd h1 h, fun _ h => ?_, fun _ _ _ _ => rfl,
            fun _ _ _ h => absurd h h4b⟩
          rcases h with h | h
          · exact absurd h2 h
          · exact absurd h h3
        · by_cases h5 : o.createDeviceResult = VK_SUCCESS
          · rw [construct_of_success uninit o s h1 h2 h3 h4 h5]
            refine ⟨⟨fun _ => ⟨h1, h2, h3, not_lt.1 h4, h5⟩, fun _ => rfl⟩,
              fun h => absurd h1 h, fun _ h => ?_, fun _ _ _ h => absurd h h4,
              fun _ _ _ _ h => absurd h5 h⟩
            rcases h with h | h
            · exact absurd h2 h
            · exact absurd h h3
          · rw [construct_of_device_failed uninit o s h1 h2 h3 h4 h5]
            refine ⟨⟨fun h => Bool.noConfusion h, fun h => absurd h.2.2.2.2 h5⟩,
              fun h => absurd h1 h, fun _ h => ?_, fun _ _ _ h => absurd h h4,
              fun _ _ _ _ _ => rfl⟩
            rcases h with h | h
            · exact absurd h2 h
            · exact absurd h h3
    · rw [construct_of_enumerate_failed uninit o s h1 (Or.inl h2)]
      simp [h1, h2, Engine.getEngineState]
  · rw [construct_of_instance_failed uninit o s h1]
    simp [h1, Engine.getEngineState]

/-- C20 (the code at a failing input): `vkCreateInstance` fails and the member
`m_device` held `0xDEAD` before the constructor ran; the destructor then passes
`0xDEAD`, a value the constructor never assigned, to `vkDestroyDevice`. In general,
on every path that leaves the constructor before device creation, `m_device` keeps
its indeterminate content, whereas `m_instance` is null or the created handle. -/
theorem destruct_passes_unassigned_device :
    Engine.destruct
        (Engine.construct { exampleEngine with m_device := 0xDEAD }
          ⟨VK_ERROR_OUT_OF_HOST_MEMORY, 5, VK_SUCCESS, [exampleDevice], VK_SUCCESS, 6, 7⟩
          []).1 [] =
      [NativeCall.vkDestroyDevice 0xDEAD, NativeCall.vkDestroyInstance VK_NULL_HANDLE] ∧
    ∀ (uninit : Engine) (o : ConstructorOutcomes) (s : List NativeCall),
      (o.createInstanceResult ≠ VK_SUCCESS ∨ o.enumerateResult ≠ VK_SUCCESS ∨ o.gpus = [] ∨
        findGraphicsQueueFamily (o.gpus.getD (selectPhysicalDeviceIndex o.gpus) {}) < 0) →
      (Engine.construct uninit o s).1.getEngineState._ready = false ∧
      (Engine.construct uninit o s).1.m_device = uninit.m_device ∧
      ((Engine.construct uninit o s).1.m_instance = VK_NULL_HANDLE ∨
        (Engine.construct uninit o s).1.m_instance = o.instanceHandle) ∧
      Engine.destruct (Engine.construct uninit o s).1 (Engine.construct uninit o s).2 =
        (Engine.construct uninit o s).2 ++
          [NativeCall.vkDestroyDevice uninit.m_device,
            NativeCall.vkDestroyInstance (Engine.construct uninit o s).1.m_instance] := by
  refine ⟨by decide, ?_⟩
  intro uninit o s h
  by_cases h1 : o.createInstanceResult = VK_SUCCESS
  · by_cases h2 : o.enumerateResult = VK_SUCCESS
    · by_cases h3 : o.gpus = []
      · rw [construct_of_enumerate_failed uninit o s h1 (Or.inr h3)]
        exact ⟨rfl, rfl, Or.inr rfl, rfl⟩
      · have h4 : findGraphicsQueueFamily
            (o.gpus.getD (selectPhysicalDeviceIndex o.gpus) {}) < 0 := by
          rcases h with h | h | h | h
          · exact absurd h1 h
          · exact absurd h2 h
          · exact absurd h h3
          · exact h
        rw [construct_of_no_queue uninit o s h1 h2 h3 h4]
        exact ⟨rfl, rfl, Or.inr rfl, rfl⟩
    · rw [construct_of_enumerate_failed uninit o s h1 (Or.inl h2)]
      exact ⟨rfl, rfl, Or.inr rfl, rfl⟩
  · rw [construct_of_instance_failed uninit o s h1]
    exact ⟨rfl, rfl, Or.inl rfl, rfl⟩

/-! ## The template `Result` -/

/-- C13: `isValid` returns true exactly when the result holds a value and false
exactly when it holds an error code; a result holds one of the two and not both. -/
theorem Result_isValid_iff {T : Type} (r : Result T) :
    (r.isValid = true ↔ ∃ v, r = Result.value v) ∧
    (r.isValid = false ↔ ∃ e, r = Result.error e) ∧
    ((∃ v, r = Result.value v) ∨ (∃ e, r = Result.error e)) ∧
    ¬ ((∃ v, r = Result.value v) ∧ (∃ e, r = Result.error e)) := by
  cases r with
  | value v =>
    refine ⟨⟨fun _ => ⟨v, rfl⟩, fun _ => rfl⟩,
      ⟨fun h => Bool.noConfusion h, fun ⟨e, he⟩ => Result.noConfusion he⟩,
      Or.inl ⟨v, rfl⟩, fun ⟨_, ⟨e, he⟩⟩ => Result.noConfusion he⟩
  | error e =>
    refine ⟨⟨fun h => Bool.noConfusion h, fun ⟨v, hv⟩ => Result.noConfusion hv⟩,
      ⟨fun _ => ⟨e, rfl⟩, fun _ => rfl⟩,
      Or.inr ⟨e, rfl⟩, fun ⟨⟨v, hv⟩, _⟩ => Result.noConfusion hv⟩

/-- C14: on a valid result `getValue` returns the stored value and `getError` throws;
on an invalid result `getError` returns the stored error code and `getValue` throws.
Neither accessor ever returns a value that was not stored. -/
theorem Result_getValue_getError {T : Type} (r : Result T) :
    (∀ v, r = Result.value v → r.isValid = true ∧ r.getValue = some v ∧ r.getError = none) ∧
    (∀ e, r = Result.error e → r.isValid = false ∧ r.getError = some e ∧ r.getValue = none) ∧
    (r.isValid = true → r.getError = none ∧ ∃ v, r.getValue = some v ∧ r = Result.value v) ∧
    (r.isValid = false → r.getValue = none ∧ ∃ e, r.getError = some e ∧ r = Result.error e) := by
  cases r with
  | value v =>
    refine ⟨fun w hw => ?_, fun e he => Result.noConfusion he,
      fun _ => ⟨rfl, v, rfl, rfl⟩, fun h => Bool.noConfusion h⟩
    injection hw with hw
    subst hw
    exact ⟨rfl, rfl, rfl⟩
  | error e =>
    refine ⟨fun w hw => Result.noConfusion hw, fun e2 he => ?_,
      fun h => Bool.noConfusion h, fun _ => ⟨rfl, e, rfl, rfl⟩⟩
    injection he with he
    subst he
    exact ⟨rfl, rfl, rfl⟩

/-! ## The stored queue-family index -/

/-- C21 (the code at a failing input): the storage of the member
`m_computeFamilyIndex` holds `0xBEEF` before the constructor runs and the example
device, whose compute family has index 0, is the only device. Construction succeeds,
the device is created and the queue fetched with family index 0, and the member still
holds `0xBEEF`. In general a successful construction leaves the member with its
indeterminate content, whatever family index was used. -/
theorem construct_leaves_computeFamilyIndex_unassigned :
    (Engine.construct { exampleEngine with m_computeFamilyIndex := 0xBEEF }
      ⟨VK_SUCCESS, 5, VK_SUCCESS, [exampleDevice], VK_SUCCESS, 6, 7⟩ []) =
      ({ m_instance := 5, m_physicalDevice := exampleDevice, m_device := 6, m_queue := 7,
          m_computeFamilyIndex := 0xBEEF, m_result := VK_SUCCESS, m_success := true },
        [NativeCall.vkCreateInstance VK_SUCCESS 5,
          NativeCall.vkEnumeratePhysicalDevices 5 false VK_SUCCESS 1,
          NativeCall.vkEnumeratePhysicalDevices 5 true VK_SUCCESS 1,
          NativeCall.vkGetPhysicalDeviceProperties 7,
          NativeCall.vkGetPhysicalDeviceQueueFamilyProperties 7 false,
          NativeCall.vkGetPhysicalDeviceQueueFamilyProperties 7 true,
          NativeCall.vkCreateDevice 7 0 1 VK_SUCCESS 6,
          NativeCall.vkGetDeviceQueue 6 0 0]) ∧
    findGraphicsQueueFamily exampleDevice = 0 ∧
    ∀ (uninit : Engine) (o : ConstructorOutcomes) (s : List NativeCall),
      (Engine.construct uninit o s).1.getEngineState._ready = true →
      (Engine.construct uninit o s).1.m_computeFamilyIndex = uninit.m_computeFamilyIndex ∧
      NativeCall.vkCreateDevice (Engine.construct uninit o s).1.m_physicalDevice.handle
          (findGraphicsQueueFamily (Engine.construct uninit o s).1.m_physicalDevice).toNat 1
          VK_SUCCESS (Engine.construct uninit o s).1.m_device ∈ (Engine.construct uninit o s).2 ∧
      NativeCall.vkGetDeviceQueue (Engine.construct uninit o s).1.m_device
          (findGraphicsQueueFamily (Engine.construct uninit o s).1.m_physicalDevice).toNat 0
          ∈ (Engine.construct uninit o s).2 := by
  refine ⟨by decide, by decide, ?_⟩
  intro uninit o s hready
  by_cases h1 : o.createInstanceResult = VK_SUCCESS
  · by_cases h2 : o.enumerateResult = VK_SUCCESS
    · by_cases h3 : o.gpus = []
      · rw [construct_of_enumerate_failed uninit o s h1 (Or.inr h3)] at hready
        exact Bool.noConfusion hready
      · by_cases h4 :
            findGraphicsQueueFamily (o.gpus.getD (selectPhysicalDeviceIndex o.gpus) {}) < 0
        · rw [construct_of_no_queue uninit o s h1 h2 h3 h4] at hready
          exact Bool.noConfusion hready
        · by_cases h5 : o.createDeviceResult = VK_SUCCESS
          · rw [construct_of_success uninit o s h1 h2 h3 h4 h5]
            refine ⟨rfl, ?_, ?_⟩
            · simp
            · simp
          · rw [construct_of_device_failed uninit o s h1 h2 h3 h4 h5] at hready
            exact Bool.noConfusion hready
    · rw [construct_of_enumerate_failed uninit o s h1 (Or.inl h2)] at hready
      exact Bool.noConfusion hready
  · rw [construct_of_instance_failed uninit o s h1] at hready
    exact Bool.noConfusion hready

/-! ## Relaxing the required properties -/

theorem memoryTypeMatches_relax (mp : VkPhysicalDeviceMemoryProperties) (B P Q i : Nat)
    (hsub : P &&& Q = P) (h : memoryTypeMatches mp B Q i = true) :
    memoryTypeMatches mp B P i = true := by
  unfold memoryTypeMatches at h ⊢
  rw [Bool.and_eq_true] at h ⊢
  refine ⟨h.1, ?_⟩
  have hq : (mp.memoryTypeAt i).propertyFlags &&& Q = Q := by simpa using h.2
  have hp : (mp.memoryTypeAt i).propertyFlags &&& P = P := by
    calc (mp.memoryTypeAt i).propertyFlags &&& P
        = (mp.memoryTypeAt i).propertyFlags &&& (P &&& Q) := by rw [hsub]
      _ = (mp.memoryTypeAt i).propertyFlags &&& (Q &&& P) := by rw [Nat.and_comm P Q]
      _ = ((mp.memoryTypeAt i).propertyFlags &&& Q) &&& P := by rw [Nat.and_assoc]
      _ = Q &&& P := by rw [hq]
      _ = P := by rw [Nat.and_comm Q P, hsub]
  simpa using hp

theorem findMemoryTypeIndexLoop_finds (mp : VkPhysicalDeviceMemoryProperties) (B P : Nat)
    (n i k : Nat) (hik : i ≤ k) (hkn : k < i + n) (hm : memoryTypeMatches mp B P k = true) :
    ∃ j, findMemoryTypeIndexLoop mp B P n i = Result.value j ∧ j ≤ k := by
  cases hres : findMemoryTypeIndexLoop mp B P n i with
  | value j =>
    obtain ⟨_, _, _, hmin⟩ := findMemoryTypeIndexLoop_value mp B P n i j hres
    refine ⟨j, rfl, ?_⟩
    by_contra hlt
    have hf := hmin k hik (by omega)
    rw [hm] at hf
    exact Bool.noConfusion hf
  | error err =>
    obtain ⟨_, hnone⟩ := findMemoryTypeIndexLoop_error mp B P n i err hres
    have hf := hnone k hik hkn
    rw [hm] at hf
    exact Bool.noConfusion hf

/-- C22: when `P` is a subset of `Q` (`P & Q == P`) and `findMemoryTypeIndex` succeeds
for the required properties `Q` with index `j`, it succeeds for `P` with an index
`i <= j` (the engine resolver and the one of the clear example); with no required
property it returns the lowest set bit of `B` below the memory-type count, and fails
when `B` has no set bit below the count. -/
theorem findMemoryTypeIndex_relax (phys : VkPhysicalDevice) (B P Q : Nat)
    (hcount : phys.memoryProperties.memoryTypeCount ≤ VK_MAX_MEMORY_TYPES)
    (hsub : P &&& Q = P) :
    (∀ j, findMemoryTypeIndex phys B Q = Result.value j →
      ∃ i, findMemoryTypeIndex phys B P = Result.value i ∧ i ≤ j) ∧
    (∀ j, clear.findMemoryTypeIndex phys B Q = Except.ok j →
      ∃ i, clear.findMemoryTypeIndex phys B P = Except.ok i ∧ i ≤ j) ∧
    (∀ i, i < phys.memoryProperties.memoryTypeCount → B.testBit i = true →
      (∀ k, k < i → B.testBit k = false) →
      findMemoryTypeIndex phys B 0 = Result.value i ∧
      clear.findMemoryTypeIndex phys B 0 = Except.ok i) ∧
    ((∀ k, k < phys.memoryProperties.memoryTypeCount → B.testBit k = false) →
      (findMemoryTypeIndex phys B 0).isValid = false) := by
  have hstep : ∀ j, findMemoryTypeIndex phys B Q = Result.value j →
      ∃ i, findMemoryTypeIndex phys B P = Result.value i ∧ i ≤ j := by
    intro j hj
    obtain ⟨_, hlt, hm, _⟩ :=
      findMemoryTypeIndexLoop_value phys.memoryProperties B Q _ 0 j hj
    exact findMemoryTypeIndexLoop_finds phys.memoryProperties B P _ 0 j (Nat.zero_le j) hlt
      (memoryTypeMatches_relax phys.memoryProperties B P Q j hsub hm)
  have hzero : ∀ i, SuitableMemoryType phys B 0 i ↔ B.testBit i = true := by
    intro i
    unfold SuitableMemoryType
    simp
  refine ⟨hstep, ?_, ?_, ?_⟩
  · intro j hj
    cases hq : findMemoryTypeIndex phys B Q with
    | value j2 =>
      have hj2 := clear_findMemoryTypeIndex_of_value phys B Q j2 hq
      rw [hj2] at hj
      injection hj with hj
      subst hj
      obtain ⟨i, hi, hle⟩ := hstep j2 hq
      exact ⟨i, clear_findMemoryTypeIndex_of_value phys B P i hi, hle⟩
    | error err =>
      have hc : clear.findMemoryTypeIndex phys B Q =
          Except.error "No suitable memory type found" := by
        unfold clear.findMemoryTypeIndex
        unfold findMemoryTypeIndex at hq
        rw [clear_loop_eq, hq]
      rw [hc] at hj
      exact Except.noConfusion hj
  · intro i hi hb hmin
    rcases findMemoryTypeIndex_cases phys B 0 hcount with ⟨j, hj, hjlt, hs, hjmin⟩ | ⟨_, hnone⟩
    · have hji : j = i := by
        have h1 : ¬ i < j := fun hlt => hjmin i hlt ((hzero i).2 hb)
        have h2 : ¬ j < i := fun hlt => by
          have := hmin j hlt
          rw [(hzero j).1 hs] at this
          exact Bool.noConfusion this
        omega
      subst hji
      exact ⟨hj, clear_findMemoryTypeIndex_of_value phys B 0 j hj⟩
    · exact absurd ((hzero i).2 hb) (hnone i hi)
  · intro hnone
    rcases findMemoryTypeIndex_cases phys B 0 hcount with ⟨j, _, hjlt, hs, _⟩ | ⟨herr, _⟩
    · have := hnone j hjlt
      rw [(hzero j).1 hs] at this
      exact Bool.noConfusion this
    · rw [herr]
      rfl

/-- C22, on the example device with the bitmask `0b011`: requiring host-visible and
coherent memory gives index 1, requiring host-visible memory alone gives index 0; with
the bitmask `0b110` and no required property the result is the lowest set bit, 1. -/
theorem findMemoryTypeIndex_relax_witness :
    exampleDevice.memoryProperties.memoryTypeCount ≤ VK_MAX_MEMORY_TYPES ∧
    VK_MEMORY_PROPERTY_HOST_VISIBLE_BIT &&&
      (VK_MEMORY_PROPERTY_HOST_VISIBLE_BIT ||| VK_MEMORY_PROPERTY_HOST_COHERENT_BIT) =
      VK_MEMORY_PROPERTY_HOST_VISIBLE_BIT ∧
    findMemoryTypeIndex exampleDevice 0b011
      (VK_MEMORY_PROPERTY_HOST_VISIBLE_BIT ||| VK_MEMORY_PROPERTY_HOST_COHERENT_BIT) =
      Result.value 1 ∧
    (∃ i, findMemoryTypeIndex exampleDevice 0b011 VK_MEMORY_PROPERTY_HOST_VISIBLE_BIT =
      Result.value i ∧ i ≤ 1) ∧
    findMemoryTypeIndex exampleDevice 0b110 0 = Result.value 1 :=
  ⟨by decide, by decide, by decide,
    (findMemoryTypeIndex_relax exampleDevice 0b011 VK_MEMORY_PROPERTY_HOST_VISIBLE_BIT
      (VK_MEMORY_PROPERTY_HOST_VISIBLE_BIT ||| VK_MEMORY_PROPERTY_HOST_COHERENT_BIT)
      (by decide) (by decide)).1 1 (by decide),
    ((findMemoryTypeIndex_relax exampleDevice 0b110 0 0 (by decide) (by decide)).2.2.1 1
      (by decide) (by decide) (by
        intro k hk
        have hk0 : k = 0 := by omega
        subst hk0
        decide)).1⟩

end melkior.engine

namespace clear

open melkior.engine

/-! ## The clear example: auxiliary facts -/

theorem emits_pure {α : Type} (P : Call → Prop) (a : α) : Emits P (pure a : Run α) :=
  fun s => ⟨[], by simp [pure, Run.pure], fun c hc => by cases hc⟩

theorem emits_throw {α : Type} (P : Call → Prop) (what : String) :
    Emits P (throwRuntimeError what : Run α) :=
  fun s => ⟨[], by simp [throwRuntimeError], fun c hc => by cases hc⟩

theorem emits_abort {α : Type} (P : Call → Prop) : Emits P (abort : Run α) :=
  fun s => ⟨[], by simp [abort], fun c hc => by cases hc⟩

theorem emits_call (P : Call → Prop) (c : Call) (h : P c) : Emits P (call c) :=
  fun s => ⟨[c], rfl, fun d hd => by rw [List.mem_singleton.1 hd]; exact h⟩

theorem emits_vkCheck (P : Call → Prop) (r : VkResult) (what : String) :
    Emits P (vkCheck r what) := by
  unfold vkCheck
  split
  · exact emits_throw P what
  · exact emits_pure P ()

theorem emits_ite {α : Type} (P : Call → Prop) (c : Prop) [Decidable c] (a b : Run α)
    (ha : Emits P a) (hb : Emits P b) : Emits P (if c then a else b) := by
  split
  · exact ha
  · exact hb

theorem emits_bind {α β : Type} (P : Call → Prop) (m : Run α) (f : α → Run β)
    (hm : Emits P m) (hf : ∀ a, Emits P (f a)) : Emits P (m >>= f) := by
  intro s
  obtain ⟨t, ht, hP⟩ := hm s
  show ∃ t, (Run.bind m f s).2 = s ++ t ∧ ∀ c ∈ t, P c
  unfold Run.bind
  cases hms : m s with
  | mk e s1 =>
    rw [hms] at ht
    simp only at ht
    subst ht
    cases e with
    | done a =>
      obtain ⟨t2, ht2, hP2⟩ := hf a (s ++ t)
      refine ⟨t ++ t2, by simp [ht2], ?_⟩
      intro c hc
      rcases List.mem_append.1 hc with h | h
      · exact hP c h
      · exact hP2 c h
    | thrown w => exact ⟨t, rfl, hP⟩
    | aborted => exact ⟨t, rfl, hP⟩

theorem emits_liftExcept_bind {α β : Type} (P : Call → Prop) (e : Except String α)
    (f : α → Run β) (hf : ∀ a, e = Except.ok a → Emits P (f a)) :
    Emits P (liftExcept e >>= f) := by
  cases e with
  | error w => exact fun s => ⟨[], by simp [liftExcept, throwRuntimeError, bind, Run.bind],
      fun c hc => by cases hc⟩
  | ok a =>
    have := hf a rfl
    intro s
    obtain ⟨t, ht, hP⟩ := this s
    exact ⟨t, ht, hP⟩

theorem fillWords_length : ∀ (n : Nat) (bytes : List Nat), (fillWords n bytes).length = n := by
  intro n
  induction n with
  | zero => intro bytes; rfl
  | succ n ih => intro bytes; simp [fillWords, ih]

theorem wordBytes_fillWords :
    ∀ (n : Nat) (bytes : List Nat), bytes.length = 4 * n →
      wordBytes (fillWords n bytes) = bytes := by
  intro n
  induction n with
  | zero =>
    intro bytes h
    have : bytes = [] := List.length_eq_zero.1 (by omega)
    subst this
    rfl
  | succ n ih =>
    intro bytes h
    match bytes, h with
    | b0 :: b1 :: b2 :: b3 :: rest, h =>
      have hrest : rest.length = 4 * n := by simp at h; omega
      simp [fillWords, wordBytes, ih rest hrest]
    | [], h => exact absurd h (by simp)
    | [_], h => exact absurd h (by simp; omega)
    | [_, _], h => exact absurd h (by simp; omega)
    | [_, _, _], h => exact absurd h (by simp; omega)

theorem readFileU32_ok (path : String) (bytes : List Nat) (words : List Word32)
    (h : readFileU32 path (some bytes) = Except.ok words) :
    0 < bytes.length ∧ bytes.length % 4 = 0 ∧ words = fillWords (bytes.length / 4) bytes := by
  unfold readFileU32 at h
  simp only at h
  split at h
  · exact Except.noConfusion h
  · rename_i hc
    injection h with h
    refine ⟨by omega, by omega, ?_⟩
    rw [← h]
    simp

theorem readFileU32_error (path : String) (bytes : List Nat) (what : String)
    (h : readFileU32 path (some bytes) = Except.error what) :
    bytes.length = 0 ∨ bytes.length % 4 ≠ 0 := by
  unfold readFileU32 at h
  simp only at h
  split at h
  · rename_i hc
    omega
  · exact Except.noConfusion h

theorem bodyCall_plain (o : Outcomes) (c : Call)
    (h : (match c with
      | Call.vkBeginCommandBuffer _ => false
      | Call.vkCmdDispatch _ _ _ => false
      | Call.vkCreatePipelineLayout _ _ => false
      | Call.vkCmdPushConstants _ _ _ => false
      | Call.vkCreateShaderModule _ => false
      | c => !c.isRelease) = true) : BodyCall o c := by
  cases c <;> first
    | exact Bool.noConfusion h
    | exact ⟨rfl, fun _ h => Call.noConfusion h, fun _ _ _ h => Call.noConfusion h,
        fun _ _ h => Call.noConfusion h, fun _ _ _ h => Call.noConfusion h,
        fun _ h => Call.noConfusion h⟩

theorem bodyCall_begin (o : Outcomes) : BodyCall o (Call.vkBeginCommandBuffer 0) :=
  ⟨rfl, fun _ h => by injection h with h; exact h.symm, fun _ _ _ h => Call.noConfusion h,
    fun _ _ h => Call.noConfusion h, fun _ _ _ h => Call.noConfusion h,
    fun _ h => Call.noConfusion h⟩

theorem bodyCall_dispatch (o : Outcomes) : BodyCall o (Call.vkCmdDispatch (groupCountX N) 1 1) :=
  ⟨rfl, fun _ h => Call.noConfusion h,
    fun _ _ _ h => by injection h with h1 h2 h3; exact ⟨h1.symm, h2.symm, h3.symm⟩,
    fun _ _ h => Call.noConfusion h, fun _ _ _ h => Call.noConfusion h,
    fun _ h => Call.noConfusion h⟩

theorem bodyCall_pipelineLayout (o : Outcomes) :
    BodyCall o (Call.vkCreatePipelineLayout 0 sizeofPushConstants) :=
  ⟨rfl, fun _ h => Call.noConfusion h, fun _ _ _ h => Call.noConfusion h,
    fun _ _ h => by injection h with h1 h2; exact ⟨h1.symm, h2.symm⟩,
    fun _ _ _ h => Call.noConfusion h, fun _ h => Call.noConfusion h⟩

theorem bodyCall_pushConstants (o : Outcomes) (v : List Nat) :
    BodyCall o (Call.vkCmdPushConstants 0 sizeofPushConstants v) :=
  ⟨rfl, fun _ h => Call.noConfusion h, fun _ _ _ h => Call.noConfusion h,
    fun _ _ h => Call.noConfusion h,
    fun _ _ _ h => by injection h with h1 h2 h3; exact ⟨h1.symm, h2.symm⟩,
    fun _ h => Call.noConfusion h⟩

theorem bodyCall_shaderModule (o : Outcomes) (spirv : List Word32)
    (h : readFileU32 "clear.spv" o.shaderFile = Except.ok spirv) :
    BodyCall o (Call.vkCreateShaderModule (spirv.length * 4)) := by
  refine ⟨rfl, fun _ h => Call.noConfusion h, fun _ _ _ h => Call.noConfusion h,
    fun _ _ h => Call.noConfusion h, fun _ _ _ h => Call.noConfusion h, ?_⟩
  intro codeSize hc
  injection hc with hc
  cases hf : o.shaderFile with
  | none => rw [hf] at h; exact Except.noConfusion h
  | some bytes =>
    rw [hf] at h
    obtain ⟨_, h4, hw⟩ := readFileU32_ok _ bytes spirv h
    refine ⟨bytes, rfl, ?_⟩
    rw [← hc, hw, fillWords_length]
    omega

theorem setup_emits (o : Outcomes) : Emits (BodyCall o) (setup o) := by
  simp only [setup]
  repeat (first
    | exact emits_call _ _ (bodyCall_plain _ _ rfl)
    | exact emits_call _ _ (bodyCall_pipelineLayout _)
    | exact emits_call _ _ (bodyCall_shaderModule _ _ (by assumption))
    | exact emits_vkCheck _ _ _
    | exact emits_throw _ _
    | exact emits_pure _ _
    | refine emits_ite _ _ _ _ ?_ ?_
    | refine emits_liftExcept_bind _ _ _ (fun _ _ => ?_)
    | refine emits_bind _ _ _ ?_ (fun _ => ?_))

theorem recordSubmitReadback_emits (o : Outcomes) :
    Emits (BodyCall o) (recordSubmitReadback o) := by
  simp only [recordSubmitReadback]
  repeat (first
    | exact emits_call _ _ (bodyCall_plain _ _ rfl)
    | exact emits_call _ _ (bodyCall_begin _)
    | exact emits_call _ _ (bodyCall_dispatch _)
    | exact emits_call _ _ (bodyCall_pushConstants _ _)
    | exact emits_vkCheck _ _ _
    | exact emits_abort _
    | exact emits_pure _ _
    | refine emits_ite _ _ _ _ ?_ ?_
    | refine emits_bind _ _ _ ?_ (fun _ => ?_))

theorem bind_call_apply {β : Type} (c : Call) (f : Unit → Run β) (s : List Call) :
    (call c >>= f) s = f () (s ++ [c]) := rfl

theorem bind_vkCheck_apply {β : Type} (r : VkResult) (what : String) (f : Unit → Run β)
    (s : List Call) :
    (vkCheck r what >>= f) s = if r = VK_SUCCESS then f () s else (Exit.thrown what, s) := by
  by_cases h : r = VK_SUCCESS
  · simp [vkCheck, h, bind, Run.bind, pure, Run.pure]
  · simp [vkCheck, h, bind, Run.bind, throwRuntimeError]

theorem bind_pure_apply {α β : Type} (a : α) (f : α → Run β) (s : List Call) :
    ((pure a : Run α) >>= f) s = f a s := rfl

theorem bind_abort_apply {α β : Type} (f : α → Run β) (s : List Call) :
    ((abort : Run α) >>= f) s = (Exit.aborted, s) := rfl

theorem ite_run_apply {α : Type} (c : Prop) [Decidable c] (a b : Run α) (s : List Call) :
    (if c then a else b) s = if c then a s else b s := by
  split <;> rfl

theorem mismatchLoop_false_iff (u : Nat → Nat) :
    ∀ (n i : Nat), mismatchLoop u n i = false ↔ ∀ k, k < n → u (i + k) = value := by
  intro n
  induction n with
  | zero => intro i; simp [mismatchLoop]
  | succ n ih =>
    intro i
    unfold mismatchLoop
    by_cases h : u i = value
    · have hb : (u i != value) = false := by simp [h]
      rw [hb]
      simp only [Bool.false_eq_true, if_false]
      rw [ih (i + 1)]
      constructor
      · intro hk k hlt
        cases k with
        | zero => exact h
        | succ k =>
          have := hk k (by omega)
          rw [show i + (k + 1) = i + 1 + k by omega]
          exact this
      · intro hk k hlt
        have := hk (k + 1) (by omega)
        rw [show i + 1 + k = i + (k + 1) by omega]
        exact this
    · have hb : (u i != value) = true := by simp [h]
      rw [hb]
      simp only [if_true]
      constructor
      · intro hf; exact Bool.noConfusion hf
      · intro hk
        exact absurd (hk 0 (by omega)) h

theorem recordSubmitReadback_success (o : Outcomes) (s : List Call)
    (h1 : o.beginCommandBuffer = VK_SUCCESS) (h2 : o.endCommandBuffer = VK_SUCCESS)
    (h3 : o.createFence = VK_SUCCESS) (h4 : o.queueSubmit = VK_SUCCESS)
    (h5 : o.waitForFences = VK_SUCCESS) (h6 : o.mapMemoryReadback = VK_SUCCESS)
    (h7 : mismatchLoop o.readback N 0 = false) :
    recordSubmitReadback o s =
      (Exit.done (),
        s ++ [Call.vkBeginCommandBuffer 0, Call.vkCmdBindPipeline, Call.vkCmdBindDescriptorSets,
          Call.vkCmdPushConstants 0 sizeofPushConstants [N, value],
          Call.vkCmdDispatch (groupCountX N) 1 1,
          Call.vkCmdPipelineBarrier VK_PIPELINE_STAGE_COMPUTE_SHADER_BIT
            VK_PIPELINE_STAGE_HOST_BIT VK_ACCESS_SHADER_WRITE_BIT VK_ACCESS_HOST_READ_BIT 0
            VK_WHOLE_SIZE,
          Call.vkEndCommandBuffer, Call.vkCreateFence, Call.vkQueueSubmit,
          Call.vkWaitForFences UINT64_MAX, Call.vkMapMemory 0 VK_WHOLE_SIZE, Call.hostRead,
          Call.vkUnmapMemory]) := by
  simp only [recordSubmitReadback, bind_call_apply, bind_vkCheck_apply, ite_run_apply,
    bind_pure_apply, bind_abort_apply, h1, h2, h3, h4, h5, h6, h7, if_true,
    Bool.false_eq_true, if_false]
  simp [call]

theorem recordSubmitReadback_mismatch (o : Outcomes) (s : List Call)
    (h1 : o.beginCommandBuffer = VK_SUCCESS) (h2 : o.endCommandBuffer = VK_SUCCESS)
    (h3 : o.createFence = VK_SUCCESS) (h4 : o.queueSubmit = VK_SUCCESS)
    (h5 : o.waitForFences = VK_SUCCESS) (h6 : o.mapMemoryReadback = VK_SUCCESS)
    (h7 : mismatchLoop o.readback N 0 = true) :
    recordSubmitReadback o s =
      (Exit.aborted,
        s ++ [Call.vkBeginCommandBuffer 0, Call.vkCmdBindPipeline, Call.vkCmdBindDescriptorSets,
          Call.vkCmdPushConstants 0 sizeofPushConstants [N, value],
          Call.vkCmdDispatch (groupCountX N) 1 1,
          Call.vkCmdPipelineBarrier VK_PIPELINE_STAGE_COMPUTE_SHADER_BIT
            VK_PIPELINE_STAGE_HOST_BIT VK_ACCESS_SHADER_WRITE_BIT VK_ACCESS_HOST_READ_BIT 0
            VK_WHOLE_SIZE,
          Call.vkEndCommandBuffer, Call.vkCreateFence, Call.vkQueueSubmit,
          Call.vkWaitForFences UINT64_MAX, Call.vkMapMemory 0 VK_WHOLE_SIZE,
          Call.hostRead]) := by
  simp only [recordSubmitReadback, bind_call_apply, bind_vkCheck_apply, ite_run_apply,
    bind_pure_apply, bind_abort_apply, h1, h2, h3, h4, h5, h6, h7, if_true]
  simp

theorem cleanup_eq (s : List Call) :
    cleanup s =
      (Exit.done (),
        s ++ [Call.vkDestroyFence, Call.vkDestroyCommandPool, Call.vkDestroyDescriptorPool,
          Call.vkDestroyPipeline, Call.vkDestroyShaderModule, Call.vkDestroyPipelineLayout,
          Call.vkDestroyDescriptorSetLayout, Call.vkDestroyBuffer, Call.vkFreeMemory,
          Call.vkDestroyDevice, Call.vkDestroyInstance]) := by
  simp only [cleanup, bind_call_apply]
  simp [call]

theorem main_eq (o : Outcomes) (s : List Call) :
    main o s =
      match setup o s with
      | (Exit.done _, s1) =>
        (match recordSubmitReadback o s1 with
        | (Exit.done _, s2) =>
          (Exit.done 0,
            s2 ++ [Call.vkDestroyFence, Call.vkDestroyCommandPool,
              Call.vkDestroyDescriptorPool, Call.vkDestroyPipeline,
              Call.vkDestroyShaderModule, Call.vkDestroyPipelineLayout,
              Call.vkDestroyDescriptorSetLayout, Call.vkDestroyBuffer, Call.vkFreeMemory,
              Call.vkDestroyDevice, Call.vkDestroyInstance])
        | (Exit.thrown what, s2) => (Exit.thrown what, s2)
        | (Exit.aborted, s2) => (Exit.aborted, s2))
      | (Exit.thrown what, s1) => (Exit.thrown what, s1)
      | (Exit.aborted, s1) => (Exit.aborted, s1) := by
  show Run.bind (setup o) (fun _ => Run.bind (recordSubmitReadback o)
    (fun _ => Run.bind cleanup (fun _ => Run.pure 0))) s = _
  unfold Run.bind
  cases h1 : setup o s with
  | mk e1 s1 =>
    cases e1 with
    | done a =>
      simp only
      cases h2 : recordSubmitReadback o s1 with
      | mk e2 s2 =>
        cases e2 with
        | done b => simp only [cleanup_eq, Run.pure]
        | thrown w => rfl
        | aborted => rfl
    | thrown w => rfl
    | aborted => rfl

/-- The two ways `main` ends: it returns 0 after the body and the cleanup, or it ends
in the body, throwing or aborting, and the cleanup is not run. -/
theorem main_cases (o : Outcomes) :
    (∃ pre, main o [] =
        (Exit.done 0,
          pre ++ [Call.vkDestroyFence, Call.vkDestroyCommandPool,
            Call.vkDestroyDescriptorPool, Call.vkDestroyPipeline,
            Call.vkDestroyShaderModule, Call.vkDestroyPipelineLayout,
            Call.vkDestroyDescriptorSetLayout, Call.vkDestroyBuffer, Call.vkFreeMemory,
            Call.vkDestroyDevice, Call.vkDestroyInstance]) ∧
      ∀ c ∈ pre, BodyCall o c) ∨
    ((main o []).1 ≠ Exit.done 0 ∧ ∀ c ∈ (main o []).2, BodyCall o c) := by
  rw [main_eq]
  obtain ⟨t1, ht1, hP1⟩ := setup_emits o []
  cases h1 : setup o [] with
  | mk e1 s1 =>
    rw [h1] at ht1
    simp only [List.nil_append] at ht1
    subst ht1
    cases e1 with
    | done a =>
      simp only
      obtain ⟨t2, ht2, hP2⟩ := recordSubmitReadback_emits o s1
      cases h2 : recordSubmitReadback o s1 with
      | mk e2 s2 =>
        rw [h2] at ht2
        simp only at ht2
        subst ht2
        have hall : ∀ c ∈ s1 ++ t2, BodyCall o c := by
          intro c hc
          rcases List.mem_append.1 hc with h | h
          · exact hP1 c h
          · exact hP2 c h
        cases e2 with
        | done b => exact Or.inl ⟨s1 ++ t2, rfl, hall⟩
        | thrown w => exact Or.inr ⟨fun h => Exit.noConfusion h, hall⟩
        | aborted => exact Or.inr ⟨fun h => Exit.noConfusion h, hall⟩
    | thrown w => exact Or.inr ⟨fun h => Exit.noConfusion h, hP1⟩
    | aborted => exact Or.inr ⟨fun h => Exit.noConfusion h, hP1⟩

theorem groupCountX_of_no_wrap (n : Nat) (h : n + 255 < 2 ^ 32) :
    groupCountX n = (n + 255) / 256 := by
  have h32 : (2 : Nat) ^ 32 = 4294967296 := by norm_num
  rw [h32] at h
  have key : sub32 (add32 n 256) 1 = n + 255 := by
    unfold sub32 add32
    rw [h32]
    rcases Nat.lt_or_ge (n + 256) 4294967296 with hlt | hge
    · rw [Nat.mod_eq_of_lt hlt, Nat.mod_eq_of_lt hlt]
      have h1 : n + 256 + 4294967296 - 1 % 4294967296 = n + 255 + 4294967296 := by
        rw [Nat.mod_eq_of_lt (by norm_num)]
        omega
      rw [h1, Nat.add_mod_right, Nat.mod_eq_of_lt h]
    · have hn : n = 4294967040 := by omega
      subst hn
      norm_num
  unfold groupCountX
  rw [key]

/-! ## The clear example: workgroup count -/

/-- C15 (counterexample): for `N = 4294967295` the sum `N + 256u - 1u` wraps to 254 and
the computed count is 0, which does not cover the `N` elements. -/
theorem groupCountX_wraps :
    groupCountX 4294967295 = 0 ∧ ¬ (4294967295 ≤ 256 * groupCountX 4294967295) := by
  decide

/-- C15 (amended): for every element count `n` with `n + 255 < 2 ^ 32` the computed X
count equals the ceiling of `n / 256`, it covers the `n` elements and no smaller count
does; every dispatch `main` records has the counts `(groupCountX N, 1, 1)`. -/
theorem groupCountX_eq_ceil (n : Nat) (h : n + 255 < 2 ^ 32) :
    groupCountX n = ⌈(n : ℚ) / 256⌉₊ ∧
    n ≤ 256 * groupCountX n ∧
    (∀ c, n ≤ 256 * c → groupCountX n ≤ c) ∧
    ∀ (o : Outcomes), ∀ c ∈ (main o []).2, ∀ x y z, c = Call.vkCmdDispatch x y z →
      x = groupCountX N ∧ y = 1 ∧ z = 1 := by
  have hg := groupCountX_of_no_wrap n h
  have hcover : n ≤ 256 * groupCountX n := by rw [hg]; omega
  have hleast : ∀ c, n ≤ 256 * c → groupCountX n ≤ c := by
    intro c hc; rw [hg]; omega
  refine ⟨?_, hcover, hleast, ?_⟩
  · apply le_antisymm
    · apply hleast
      have h1 : (n : ℚ) / 256 ≤ (⌈(n : ℚ) / 256⌉₊ : ℚ) := Nat.le_ceil _
      have h2 : (n : ℚ) ≤ 256 * (⌈(n : ℚ) / 256⌉₊ : ℚ) := by linarith
      exact_mod_cast h2
    · apply Nat.ceil_le.2
      have h3 : (n : ℚ) ≤ 256 * (groupCountX n : ℚ) := by exact_mod_cast hcover
      linarith
  · intro o c hc x y z hxyz
    rcases main_cases o with ⟨pre, hmain, hpre⟩ | ⟨_, hall⟩
    · rw [hmain] at hc
      rcases List.mem_append.1 hc with hin | hin
      · exact (hpre c hin).2.2.1 x y z hxyz
      · subst hxyz
        simp at hin
    · exact (hall c hc).2.2.1 x y z hxyz

/-- C15 (amended), for the `N = 1024` of the example: the count is 4. -/
theorem groupCountX_eq_ceil_witness :
    1024 + 255 < 2 ^ 32 ∧ groupCountX 1024 = 4 ∧ 1024 ≤ 256 * groupCountX 1024 :=
  ⟨by decide, by decide, (groupCountX_eq_ceil 1024 (by decide)).2.1⟩

theorem mismatchLoop_successOutcomes : mismatchLoop successOutcomes.readback N 0 = false :=
  (mismatchLoop_false_iff _ N 0).2 (fun _ _ => rfl)

theorem hostRead_needs_wait (o : Outcomes)
    (h : Call.hostRead ∈ (recordSubmitReadback o []).2) :
    o.waitForFences = VK_SUCCESS ∧ o.mapMemoryReadback = VK_SUCCESS := by
  by_cases h1 : o.beginCommandBuffer = VK_SUCCESS
  swap
  · simp [recordSubmitReadback, bind_call_apply, bind_vkCheck_apply, h1] at h
  by_cases h2 : o.endCommandBuffer = VK_SUCCESS
  swap
  · simp [recordSubmitReadback, bind_call_apply, bind_vkCheck_apply, h1, h2] at h
  by_cases h3 : o.createFence = VK_SUCCESS
  swap
  · simp [recordSubmitReadback, bind_call_apply, bind_vkCheck_apply, h1, h2, h3] at h
  by_cases h4 : o.queueSubmit = VK_SUCCESS
  swap
  · simp [recordSubmitReadback, bind_call_apply, bind_vkCheck_apply, h1, h2, h3, h4] at h
  by_cases h5 : o.waitForFences = VK_SUCCESS
  swap
  · simp [recordSubmitReadback, bind_call_apply, bind_vkCheck_apply, h1, h2, h3, h4, h5] at h
  by_cases h6 : o.mapMemoryReadback = VK_SUCCESS
  swap
  · simp [recordSubmitReadback, bind_call_apply, bind_vkCheck_apply, h1, h2, h3, h4, h5, h6] at h
  exact ⟨h5, h6⟩

/-! ## The clear example: record, submit, read back -/

/-- C16 (counterexample): when every native call succeeds and the words read back
equal `value`, the calls of the dispatch are thirteen, `vkCreateFence` standing
between the end of the command buffer and the submit; when every native call
succeeds and the words read back are `0xABABABAB`, the run aborts after the read and
the memory is not unmapped. -/
theorem recordSubmitReadback_not_the_claimed_sequence :
    (recordSubmitReadback successOutcomes []).2 =
      [Call.vkBeginCommandBuffer 0, Call.vkCmdBindPipeline, Call.vkCmdBindDescriptorSets,
        Call.vkCmdPushConstants 0 8 [1024, 0xDEADBEEF], Call.vkCmdDispatch 4 1 1,
        Call.vkCmdPipelineBarrier VK_PIPELINE_STAGE_COMPUTE_SHADER_BIT
          VK_PIPELINE_STAGE_HOST_BIT VK_ACCESS_SHADER_WRITE_BIT VK_ACCESS_HOST_READ_BIT 0
          VK_WHOLE_SIZE,
        Call.vkEndCommandBuffer, Call.vkCreateFence, Call.vkQueueSubmit,
        Call.vkWaitForFences UINT64_MAX, Call.vkMapMemory 0 VK_WHOLE_SIZE, Call.hostRead,
        Call.vkUnmapMemory] ∧
    recordSubmitReadback { successOutcomes with readback := fun _ => 0xABABABAB } [] =
      (Exit.aborted,
        [Call.vkBeginCommandBuffer 0, Call.vkCmdBindPipeline, Call.vkCmdBindDescriptorSets,
          Call.vkCmdPushConstants 0 8 [1024, 0xDEADBEEF], Call.vkCmdDispatch 4 1 1,
          Call.vkCmdPipelineBarrier VK_PIPELINE_STAGE_COMPUTE_SHADER_BIT
            VK_PIPELINE_STAGE_HOST_BIT VK_ACCESS_SHADER_WRITE_BIT VK_ACCESS_HOST_READ_BIT 0
            VK_WHOLE_SIZE,
          Call.vkEndCommandBuffer, Call.vkCreateFence, Call.vkQueueSubmit,
          Call.vkWaitForFences UINT64_MAX, Call.vkMapMemory 0 VK_WHOLE_SIZE,
          Call.hostRead]) := by
  constructor
  · rw [recordSubmitReadback_success successOutcomes [] rfl rfl rfl rfl rfl rfl
      mismatchLoop_successOutcomes]
    decide
  · rw [recordSubmitReadback_mismatch _ [] rfl rfl rfl rfl rfl rfl (by decide)]
    decide

/-- C16 (amended): when the six checked native calls of the dispatch succeed and every
one of the `N` words read back equals `value`, the sequence is exactly: begin command
buffer, bind pipeline, bind descriptor set, push constants (offset 0, size
`sizeofPushConstants`), dispatch, pipeline barrier (shader write to host read, offset
0, whole size), end command buffer, create the fence, submit, wait on the fence, map
memory, read, unmap. The pipeline layout declares the push-constant range with the
same offset and size, and in every run a host read is preceded by a successful wait
on the fence. -/
theorem recordSubmitReadback_sequence (o : Outcomes) (s : List Call)
    (h1 : o.beginCommandBuffer = VK_SUCCESS) (h2 : o.endCommandBuffer = VK_SUCCESS)
    (h3 : o.createFence = VK_SUCCESS) (h4 : o.queueSubmit = VK_SUCCESS)
    (h5 : o.waitForFences = VK_SUCCESS) (h6 : o.mapMemoryReadback = VK_SUCCESS)
    (hread : ∀ i, i < N → o.readback i = value) :
    recordSubmitReadback o s =
      (Exit.done (),
        s ++ [Call.vkBeginCommandBuffer 0, Call.vkCmdBindPipeline, Call.vkCmdBindDescriptorSets,
          Call.vkCmdPushConstants 0 sizeofPushConstants [N, value],
          Call.vkCmdDispatch (groupCountX N) 1 1,
          Call.vkCmdPipelineBarrier VK_PIPELINE_STAGE_COMPUTE_SHADER_BIT
            VK_PIPELINE_STAGE_HOST_BIT VK_ACCESS_SHADER_WRITE_BIT VK_ACCESS_HOST_READ_BIT 0
            VK_WHOLE_SIZE,
          Call.vkEndCommandBuffer, Call.vkCreateFence, Call.vkQueueSubmit,
          Call.vkWaitForFences UINT64_MAX, Call.vkMapMemory 0 VK_WHOLE_SIZE, Call.hostRead,
          Call.vkUnmapMemory]) ∧
    (∀ (o2 : Outcomes), ∀ c ∈ (main o2 []).2, ∀ off sz,
      c = Call.vkCreatePipelineLayout off sz → off = 0 ∧ sz = sizeofPushConstants) ∧
    (∀ (o2 : Outcomes), Call.hostRead ∈ (recordSubmitReadback o2 []).2 →
      o2.waitForFences = VK_SUCCESS) := by
  refine ⟨?_, ?_, fun o2 h => (hostRead_needs_wait o2 h).1⟩
  · apply recordSubmitReadback_success o s h1 h2 h3 h4 h5 h6
    rw [mismatchLoop_false_iff]
    intro k hk
    rw [Nat.zero_add]
    exact hread k hk
  · intro o2 c hc off sz hcs
    rcases main_cases o2 with ⟨pre, hmain, hpre⟩ | ⟨_, hall⟩
    · rw [hmain] at hc
      rcases List.mem_append.1 hc with hin | hin
      · exact (hpre c hin).2.2.2.1 off sz hcs
      · subst hcs
        simp at hin
    · exact (hall c hc).2.2.2.1 off sz hcs

/-- C16 (amended), on the outcomes in which everything succeeds. -/
theorem recordSubmitReadback_sequence_witness :
    (∀ i, i < N → successOutcomes.readback i = value) ∧
    (recordSubmitReadback successOutcomes []).1 = Exit.done () ∧
    (recordSubmitReadback successOutcomes []).2.length = 13 := by
  have h := (recordSubmitReadback_sequence successOutcomes [] rfl rfl rfl rfl rfl rfl
    (fun _ _ => rfl)).1
  refine ⟨fun _ _ => rfl, ?_, ?_⟩
  · rw [h]
  · rw [h]
    rfl

/-! ## The clear example: teardown -/

/-- C17 (counterexample): every call succeeds up to `vkCreateFence`, which reports
`VK_ERROR_OUT_OF_HOST_MEMORY`. `main` leaves through the exception of `vkCheck`; the
instance, the device and the buffer were created, and no release call is made. -/
theorem main_failure_path_without_teardown :
    (main { successOutcomes with createFence := VK_ERROR_OUT_OF_HOST_MEMORY } []).1 =
      Exit.thrown "vkCreateFence" ∧
    Call.vkCreateInstance ∈
      (main { successOutcomes with createFence := VK_ERROR_OUT_OF_HOST_MEMORY } []).2 ∧
    Call.vkCreateDevice 0 1 ∈
      (main { successOutcomes with createFence := VK_ERROR_OUT_OF_HOST_MEMORY } []).2 ∧
    Call.vkCreateBuffer 4096 VK_BUFFER_USAGE_STORAGE_BUFFER_BIT ∈
      (main { successOutcomes with createFence := VK_ERROR_OUT_OF_HOST_MEMORY } []).2 ∧
    (main { successOutcomes with createFence := VK_ERROR_OUT_OF_HOST_MEMORY } []).2.filter
      Call.isRelease = [] := by
  refine ⟨by decide, by decide, by decide, by decide, by decide⟩

/-- C17 (amended): when `main` returns, its last calls are the releases in the order
fence, command pool, descriptor pool, pipeline, shader module, pipeline layout,
descriptor-set layout, buffer, memory, device, instance, and no release precedes
them; when `main` does not return (a check throws, or the run aborts) it has made no
release call. -/
theorem main_teardown (o : Outcomes) :
    ((main o []).1 = Exit.done 0 →
      ∃ pre, (main o []).2 =
          pre ++ [Call.vkDestroyFence, Call.vkDestroyCommandPool,
            Call.vkDestroyDescriptorPool, Call.vkDestroyPipeline,
            Call.vkDestroyShaderModule, Call.vkDestroyPipelineLayout,
            Call.vkDestroyDescriptorSetLayout, Call.vkDestroyBuffer, Call.vkFreeMemory,
            Call.vkDestroyDevice, Call.vkDestroyInstance] ∧
        ∀ c ∈ pre, c.isRelease = false) ∧
    ((main o []).1 ≠ Exit.done 0 → ∀ c ∈ (main o []).2, c.isRelease = false) := by
  rcases main_cases o with ⟨pre, hmain, hpre⟩ | ⟨hne, hall⟩
  · rw [hmain]
    exact ⟨fun _ => ⟨pre, rfl, fun c hc => (hpre c hc).1⟩, fun h => absurd rfl h⟩
  · exact ⟨fun h => absurd h hne, fun _ c hc => (hall c hc).1⟩

theorem first_call {β : Type} (c : Call) (f : Unit → Run β)
    (hf : Emits (fun _ => True) (f ())) (s : List Call) :
    ∃ t, ((call c >>= f) s).2 = s ++ c :: t := by
  rw [bind_call_apply]
  obtain ⟨t, ht, _⟩ := hf (s ++ [c])
  exact ⟨t, by rw [ht]; simp⟩

theorem recordSubmitReadback_first_call (o : Outcomes) (s : List Call) :
    ∃ t, (recordSubmitReadback o s).2 = s ++ Call.vkBeginCommandBuffer 0 :: t := by
  simp only [recordSubmitReadback]
  refine first_call _ _ ?_ s
  repeat (first
    | exact emits_call _ _ trivial
    | exact emits_vkCheck _ _ _
    | exact emits_abort _
    | exact emits_pure _ _
    | refine emits_ite _ _ _ _ ?_ ?_
    | refine emits_bind _ _ _ ?_ (fun _ => ?_))

/-! ## The clear example: shader file -/

/-- C18: for a shader file of `s` bytes, `readFileU32` fails exactly when `s <= 0` or
`s mod 4 != 0`; otherwise it returns `s / 4` words whose storage holds the bytes of
the file in order, and the code size `spirv.size() * sizeof(uint32_t)` that `main`
passes to `vkCreateShaderModule` is `s`. -/
theorem readFileU32_spec (path : String) (bytes : List Nat) :
    ((∃ what, readFileU32 path (some bytes) = Except.error what) ↔
      ((bytes.length : Int) ≤ 0 ∨ (bytes.length : Int) % 4 ≠ 0)) ∧
    (¬ ((bytes.length : Int) ≤ 0 ∨ (bytes.length : Int) % 4 ≠ 0) →
      ∃ words, readFileU32 path (some bytes) = Except.ok words ∧
        (words.length : Int) = (bytes.length : Int) / 4 ∧
        wordBytes words = bytes ∧
        words.length * 4 = bytes.length) ∧
    (∀ (o : Outcomes), ∀ c ∈ (main o []).2, ∀ codeSize,
      c = Call.vkCreateShaderModule codeSize →
      ∃ b, o.shaderFile = some b ∧ (codeSize : Int) = (b.length : Int)) := by
  refine ⟨⟨?_, ?_⟩, ?_, ?_⟩
  · rintro ⟨what, hw⟩
    have := readFileU32_error path bytes what hw
    omega
  · intro hbad
    refine ⟨"SPIR-V file size invalid", ?_⟩
    unfold readFileU32
    simp only
    rw [if_pos hbad]
  · intro hgood
    have hres : readFileU32 path (some bytes) =
        Except.ok (fillWords (bytes.length / 4) bytes) := by
      unfold readFileU32
      simp only
      rw [if_neg hgood]
      simp
    refine ⟨_, hres, ?_, ?_, ?_⟩
    · rw [fillWords_length]
      omega
    · exact wordBytes_fillWords _ bytes (by omega)
    · rw [fillWords_length]
      omega
  · intro o c hc codeSize hcs
    have key : ∃ b, o.shaderFile = some b ∧ codeSize = b.length := by
      rcases main_cases o with ⟨pre, hmain, hpre⟩ | ⟨_, hall⟩
      · rw [hmain] at hc
        rcases List.mem_append.1 hc with hin | hin
        · exact (hpre c hin).2.2.2.2.2 codeSize hcs
        · subst hcs
          simp at hin
      · exact (hall c hc).2.2.2.2.2 codeSize hcs
    obtain ⟨b, hb, hlen⟩ := key
    exact ⟨b, hb, by rw [hlen]⟩

/-! ## The clear example: begin of the command buffer -/

/-- C19 (counterexample): in the run in which everything succeeds the command buffer
is begun with the flags 0, in which the one-time-submit bit is not set. -/
theorem beginCommandBuffer_without_one_time_submit :
    (recordSubmitReadback successOutcomes []).2.head? = some (Call.vkBeginCommandBuffer 0) ∧
    (0 : Nat) &&& VK_COMMAND_BUFFER_USAGE_ONE_TIME_SUBMIT_BIT = 0 ∧
    Call.vkBeginCommandBuffer VK_COMMAND_BUFFER_USAGE_ONE_TIME_SUBMIT_BIT ∉
      (recordSubmitReadback successOutcomes []).2 := by
  rw [recordSubmitReadback_success successOutcomes [] rfl rfl rfl rfl rfl rfl
    mismatchLoop_successOutcomes]
  refine ⟨by decide, by decide, by decide⟩

/-- C19 (amended): the recording of the clear example starts with
`vkBeginCommandBuffer` on a begin info whose flags are zero; no begin that `main`
makes carries a usage flag, so the one-time-submit flag is not set. -/
theorem beginCommandBuffer_flags_zero (o : Outcomes) :
    (∀ s, ∃ t, (recordSubmitReadback o s).2 = s ++ Call.vkBeginCommandBuffer 0 :: t) ∧
    (∀ c ∈ (main o []).2, ∀ f, c = Call.vkBeginCommandBuffer f →
      f = 0 ∧ f &&& VK_COMMAND_BUFFER_USAGE_ONE_TIME_SUBMIT_BIT = 0) := by
  refine ⟨recordSubmitReadback_first_call o, ?_⟩
  intro c hc f hcf
  have key : f = 0 := by
    rcases main_cases o with ⟨pre, hmain, hpre⟩ | ⟨_, hall⟩
    · rw [hmain] at hc
      rcases List.mem_append.1 hc with hin | hin
      · exact (hpre c hin).2.1 f hcf
      · subst hcf
        simp at hin
    · exact (hall c hc).2.1 f hcf
  subst key
  exact ⟨rfl, by decide⟩

end clear
